import Mathlib

/-! Redaction box engine (`gstglredaction`).

A shallow embedding of the geometric core of the GL redaction filter:

* `Rectangle` with `intersects`, `intersection`, `is_valid` and `operator==`
  (`gstglredaction.hh`);
* the population store of the filter object (`redactions`, `prev_redactions`,
  `frame_count`) together with the position generator, the rotation, the
  interpolation and the window clamp performed by the per-frame render
  callback `gst_gl_redaction_callback`, and the entry point
  `gst_gl_redaction_filter_texture` that loads the overlay and runs the
  callback (`gstglredaction.cpp`).

C++ `int` values are integers; `Rectangle` only compares and selects
coordinates, so no overflow can occur there.  Where the source does `int`
arithmetic that can leave the 32-bit range, the result is wrapped with
`wrap32`.  The `float` computations of the interpolation are taken over the
rationals (exact arithmetic), with the conversion to `gint` truncating toward
zero; the rounding of each `float` operation to binary32 is not modelled, so
statements about interpolated values are statements in exact arithmetic.
-/

namespace GlRedaction

/-! ## Rectangle -/

/-- The `Rectangle` value type: `left`/`top` inclusive, `right`/`bottom` exclusive. -/
structure Rectangle where
  left : Int
  top : Int
  right : Int
  bottom : Int
  deriving DecidableEq, Repr

namespace Rectangle

/-- `Rectangle::intersects`. -/
def intersects (self other : Rectangle) : Bool :=
  decide (self.left < other.right) && decide (self.right > other.left) &&
    decide (self.top < other.bottom) && decide (self.bottom > other.top)

/-- `Rectangle::intersection`: the edge-wise max/min box, replaced by
`{0, 0, 0, 0}` when it is degenerate. -/
def intersection (self other : Rectangle) : Rectangle :=
  let result : Rectangle :=
    { left := max self.left other.left
      top := max self.top other.top
      right := min self.right other.right
      bottom := min self.bottom other.bottom }
  if result.left ≥ result.right ∨ result.top ≥ result.bottom then
    { left := 0, top := 0, right := 0, bottom := 0 }
  else
    result

/-- `Rectangle::is_valid`. -/
def is_valid (self : Rectangle) : Bool :=
  !(decide (self.left ≥ self.right) || decide (self.top ≥ self.bottom))

/-- `Rectangle::operator==`. -/
def eq (self other : Rectangle) : Bool :=
  decide (self.left = other.left) && decide (self.top = other.top) &&
    decide (self.right = other.right) && decide (self.bottom = other.bottom)

/-- Edge-wise containment of `r` in `a`: every edge of `r` lies inside `a`. -/
def containedIn (r a : Rectangle) : Prop :=
  a.left ≤ r.left ∧ a.top ≤ r.top ∧ r.right ≤ a.right ∧ r.bottom ≤ a.bottom

instance (r a : Rectangle) : Decidable (containedIn r a) := by
  unfold containedIn; infer_instance

/-- The integer point `(x, y)` lies in `r` (left/top inclusive, right/bottom exclusive). -/
def contains (r : Rectangle) (x y : Int) : Prop :=
  r.left ≤ x ∧ x < r.right ∧ r.top ≤ y ∧ y < r.bottom

instance (r : Rectangle) (x y : Int) : Decidable (contains r x y) := by
  unfold contains; infer_instance

end Rectangle

/-- The canonical empty rectangle `{0, 0, 0, 0}`. -/
def emptyRectangle : Rectangle := { left := 0, top := 0, right := 0, bottom := 0 }

/-! ## Machine integers and the random source -/

/-- Two's-complement wrap of an integer into the 32-bit `int` range. -/
def wrap32 (v : Int) : Int := (v + 2147483648) % 4294967296 - 2147483648

/-- Conversion of an `int` to the 64-bit unsigned `size_t`: reduction modulo `2^64`. -/
def to_size_t (v : Int) : Nat := (v % 18446744073709551616).toNat

/-- Conversion of a `float` value to `gint`: truncation toward zero. -/
def to_gint (q : ℚ) : Int := if 0 ≤ q then ⌊q⌋ else ⌈q⌉

/-- `_GstGLRedaction::NUM_REDACTIONS`. -/
def NUM_REDACTIONS : Nat := 1000

/-- `_GstGLRedaction::REDACTION_ROTATE_THRESHOLD`. -/
def REDACTION_ROTATE_THRESHOLD : Nat := 300

/-- A fixed-size array of boxes, as the map from an index to its element; only
the indices below `NUM_REDACTIONS` are elements of the array. -/
abbrev Boxes := Nat → Rectangle

/-! ## Population store -/

/-- The fields of `_GstGLRedaction` read or written by the redaction box engine.
`image_memory` records whether the overlay pointer is non-null; `location` is
`none` for a null path.  A created object has a null `location` and
`location_has_changed` false. -/
structure GstGLRedaction where
  window_width : Int
  window_height : Int
  image_memory : Bool
  redactions : Boxes
  prev_redactions : Boxes
  frame_count : Int
  location : Option String := none
  location_has_changed : Bool := false

/-! ## Position generator

An outcome of the random source is the sequence `rand` of results of the
successive `rand()` calls, each a non-negative integer; `k` counts the calls
already made.  The C `%` on `int` is the truncated remainder `Int.tmod`. -/

/-- The target box of `gst_gl_redaction_gl_start` (lines 152-154) from four
successive `rand()` results.  All values stay far inside the `int` range. -/
def start_target_box (r0 r1 r2 r3 : Nat) : Rectangle :=
  let x : Int := -500 + Int.tmod r0 2000
  let y : Int := -500 + Int.tmod r1 1000
  { left := x, top := y, right := x - 50 + Int.tmod r2 100,
    bottom := y - 50 + Int.tmod r3 100 }

/-- The previous box of `gst_gl_redaction_gl_start` (lines 155-157). -/
def start_prev_box (r0 r1 r2 r3 : Nat) : Rectangle :=
  let x : Int := -100 + Int.tmod r0 700
  let y : Int := -100 + Int.tmod r1 400
  { left := x, top := y, right := x - 50 + Int.tmod r2 100,
    bottom := y - 50 + Int.tmod r3 100 }

/-- The initialization loop of `gst_gl_redaction_gl_start` (lines 150-158):
`n` iterations remain, `i` is the loop index and `k` the number of `rand()`
calls made so far. -/
def gl_start_loop (rand : Nat → Nat) : Nat → Nat → Nat → Boxes → Boxes → Boxes × Boxes
  | 0, _, _, red, prev => (red, prev)
  | n + 1, i, k, red, prev =>
    gl_start_loop rand n (i + 1) (k + 8)
      (Function.update red i
        (start_target_box (rand k) (rand (k + 1)) (rand (k + 2)) (rand (k + 3))))
      (Function.update prev i
        (start_prev_box (rand (k + 4)) (rand (k + 5)) (rand (k + 6)) (rand (k + 7))))

/-- `gst_gl_redaction_gl_start`: when the parent class start fails nothing is
initialized; otherwise both arrays are filled and the result of the shader
generation is returned. -/
def gst_gl_redaction_gl_start (s : GstGLRedaction) (parent_ok shader_ok : Bool)
    (rand : Nat → Nat) : GstGLRedaction × Bool :=
  if !parent_ok then (s, false)
  else
    let filled := gl_start_loop rand NUM_REDACTIONS 0 0 s.redactions s.prev_redactions
    ({ s with redactions := filled.1, prev_redactions := filled.2 }, shader_ok)

/-- One target box drawn at a rotation (lines 556-558) from four successive
`rand()` results.  The sums `500 + window_width` and `500 + window_height` are
`int` additions and wrap; a zero modulus is an integer division by zero and
gives `none`.  The remaining sums stay inside the `int` range because a
truncated remainder is smaller in magnitude than its 32-bit modulus. -/
def rotation_box (window_width window_height : Int) (r0 r1 r2 r3 : Nat) :
    Option Rectangle :=
  let mx := wrap32 (500 + window_width)
  let my := wrap32 (500 + window_height)
  if mx = 0 then none
  else if my = 0 then none
  else
    let x : Int := -500 + Int.tmod r0 mx
    let y : Int := -500 + Int.tmod r1 my
    some { left := x, top := y, right := x - 50 + Int.tmod r2 200,
           bottom := y - 50 + Int.tmod r3 200 }

/-- The regeneration loop of a rotation (lines 554-559): `n` iterations remain,
`i` is the loop index and `k` the number of `rand()` calls made so far. -/
def rotate_loop (window_width window_height : Int) (rand : Nat → Nat) :
    Nat → Nat → Nat → Boxes → Option Boxes
  | 0, _, _, red => some red
  | n + 1, i, k, red =>
    match rotation_box window_width window_height (rand k) (rand (k + 1)) (rand (k + 2))
        (rand (k + 3)) with
    | none => none
    | some b =>
      rotate_loop window_width window_height rand n (i + 1) (k + 4) (Function.update red i b)

/-! ## Interpolator, window clamp and compositor geometry -/

/-- The interpolation phase `interp` of line 564, from the value of
`frame_count` read there: the `int` is converted to `size_t` for the remainder,
and the quotient by `(float) 300` is taken exactly (its rounding to binary32 is
not modelled). -/
def interp (frame_count : Int) : ℚ :=
  ((to_size_t frame_count % REDACTION_ROTATE_THRESHOLD : Nat) : ℚ) /
    (REDACTION_ROTATE_THRESHOLD : ℚ)

/-- The per-region values computed by lines 565-569: the `float` corner `x`, `y`
and the `gint` sizes `render_width`, `render_height`. -/
structure Interpolated where
  x : ℚ
  y : ℚ
  render_width : Int
  render_height : Int

/-- Lines 564-569 for one region: the `int` differences wrap, the products and
sums are `float` operations taken exactly (their rounding to binary32 is not
modelled), and the assignments to `render_width`/`render_height` truncate. -/
def interpolate (prev cur : Rectangle) (frame_count : Int) : Interpolated :=
  let t := interp frame_count
  let x : ℚ := (prev.left : ℚ) + (wrap32 (cur.left - prev.left) : ℚ) * t
  let y : ℚ := (prev.top : ℚ) + (wrap32 (cur.top - prev.top) : ℚ) * t
  { x := x
    y := y
    render_width := to_gint ((prev.right : ℚ) + (wrap32 (cur.right - prev.right) : ℚ) * t - x)
    render_height :=
      to_gint ((prev.bottom : ℚ) + (wrap32 (cur.bottom - prev.bottom) : ℚ) * t - y) }

/-- The rectangle `to_check` of line 571, before the clamp; the `float` sums
`x + render_width` and `y + render_height` are taken exactly. -/
def to_check (p : Interpolated) : Rectangle :=
  { left := to_gint p.x
    top := to_gint p.y
    right := to_gint (p.x + (p.render_width : ℚ))
    bottom := to_gint (p.y + (p.render_height : ℚ)) }

/-- `_GstGLRedaction::clamp_to_window`. -/
def clamp_to_window (s : GstGLRedaction) (redaction : Rectangle) : Rectangle :=
  Rectangle.intersection
    { left := 0, top := 0, right := s.window_width, bottom := s.window_height } redaction

/-- The 20 entries of `vertices` uploaded for one region (lines 577-588): the
pixel corner and size mapped to normalized device coordinates, in the layout
position (3 floats) then texture coordinate (2 floats) per vertex. -/
def quad_vertices (s : GstGLRedaction) (p : Interpolated) : List ℚ :=
  let x : ℚ := (p.x / (s.window_width : ℚ)) * 2 - 1
  let y : ℚ := (p.y / (s.window_height : ℚ)) * 2 - 1
  let image_width : ℚ := ((p.render_width : ℚ) / (s.window_width : ℚ)) * 2
  let image_height : ℚ := ((p.render_height : ℚ) / (s.window_height : ℚ)) * 2
  [x, y, 0, 0, 0,
   x + image_width, y, 0, 1, 0,
   x + image_width, y + image_height, 0, 1, 1,
   x, y + image_height, 0, 0, 1]

/-- An indexed draw issued for region `region` with the uploaded `vertices`. -/
structure DrawCall where
  region : Nat
  vertices : List ℚ

/-- The drawing loop (lines 562-594): `n` iterations remain, `i` is the loop
index.  A region whose clamped rectangle is not valid is skipped. -/
def draw_loop (s : GstGLRedaction) : Nat → Nat → List DrawCall
  | 0, _ => []
  | n + 1, i =>
    let p := interpolate (s.prev_redactions i) (s.redactions i) s.frame_count
    if (clamp_to_window s (to_check p)).is_valid then
      { region := i, vertices := quad_vertices s p } :: draw_loop s n (i + 1)
    else
      draw_loop s n (i + 1)

/-! ## The per-frame render callback -/

/-- What one run of `gst_gl_redaction_callback` leaves behind: the filter
object, the overlay draw calls in order, and the returned flag.  The
full-screen base quad is drawn in every run. -/
structure CallbackResult where
  state : GstGLRedaction
  draws : List DrawCall
  ret : Bool

/-- `gst_gl_redaction_callback`.  `map_ok` is the outcome of mapping the overlay
memory (line 506).  Without an overlay the callback leaves at line 504 or 508.
Otherwise `frame_count` is read and post-incremented (line 551, the `int`
increment wraps); when the value read is a multiple of the rotation threshold,
`prev_redactions` receives a copy of `redactions` and all targets are
regenerated; then every region is interpolated with the incremented
`frame_count`, clamped and drawn.  The result is `none` when the regeneration
divides by zero. -/
def gst_gl_redaction_callback (s : GstGLRedaction) (map_ok : Bool) (rand : Nat → Nat) :
    Option CallbackResult :=
  if !s.image_memory then some { state := s, draws := [], ret := false }
  else if !map_ok then some { state := s, draws := [], ret := false }
  else
    let read := s.frame_count
    let s1 : GstGLRedaction := { s with frame_count := wrap32 (s.frame_count + 1) }
    if to_size_t read % REDACTION_ROTATE_THRESHOLD = 0 then
      match rotate_loop s1.window_width s1.window_height rand NUM_REDACTIONS 0 0
          s1.redactions with
      | none => none
      | some red =>
        let s2 : GstGLRedaction := { s1 with prev_redactions := s1.redactions, redactions := red }
        some { state := s2, draws := draw_loop s2 NUM_REDACTIONS 0, ret := true }
    else
      some { state := s1, draws := draw_loop s1 NUM_REDACTIONS 0, ret := true }

/-- A rotation event fires in the frame step from `s`: the overlay is present
and mapped, and the `frame_count` read at line 551 is a multiple of the
rotation threshold. -/
def rotation_fires (s : GstGLRedaction) (map_ok : Bool) : Prop :=
  s.image_memory = true ∧ map_ok = true ∧
    to_size_t s.frame_count % REDACTION_ROTATE_THRESHOLD = 0

instance (s : GstGLRedaction) (map_ok : Bool) : Decidable (rotation_fires s map_ok) := by
  unfold rotation_fires; infer_instance

/-! ## The texture filter entry point -/

/-- What reading and decoding the overlay file produce when `load_file` gets
past the null-path test: whether `image_memory` was allocated, and the flag
returned. -/
structure LoadOutcome where
  image_memory : Bool
  success : Bool

/-- `load_file`: a null `location` returns `TRUE` at once; otherwise the file is
opened and decoded, with the outcome `load`. -/
def load_file (s : GstGLRedaction) (load : LoadOutcome) : GstGLRedaction × Bool :=
  match s.location with
  | none => (s, true)
  | some _ => ({ s with image_memory := load.image_memory }, load.success)

/-- Modelled from the spec: `gst_gl_filter_render_to_target` belongs to the GL
filter base class and is not among the sources; the spec has one engine cycle
per delivered frame, so it runs the render callback once on the filter
object. -/
def gst_gl_filter_render_to_target (s : GstGLRedaction) (map_ok : Bool)
    (rand : Nat → Nat) : Option CallbackResult :=
  gst_gl_redaction_callback s map_ok rand

/-- What one run of `gst_gl_redaction_filter_texture` leaves behind: the filter
object, whether the render pass ran (the pass draws the full-screen base
frame), the overlay draw calls, and the returned flag. -/
structure FilterResult where
  state : GstGLRedaction
  rendered : Bool
  draws : List DrawCall
  ret : Bool

/-- Lines 687-690 of `gst_gl_redaction_filter_texture`: the render pass, whose
result is ignored, then `return TRUE`. -/
def render_and_return (s : GstGLRedaction) (map_ok : Bool) (rand : Nat → Nat) :
    Option FilterResult :=
  match gst_gl_filter_render_to_target s map_ok rand with
  | none => none
  | some r => some { state := r.state, rendered := true, draws := r.draws, ret := true }

/-- `gst_gl_redaction_filter_texture`: when the location has changed the old
overlay is released and the file is loaded, a failed load returning `FALSE`
before any rendering; then the frame is rendered and `TRUE` returned. -/
def gst_gl_redaction_filter_texture (s : GstGLRedaction) (load : LoadOutcome)
    (map_ok : Bool) (rand : Nat → Nat) : Option FilterResult :=
  if s.location_has_changed then
    let loaded := load_file { s with image_memory := false } load
    if !loaded.2 then
      some { state := loaded.1, rendered := false, draws := [], ret := false }
    else
      render_and_return { loaded.1 with location_has_changed := false } map_ok rand
  else
    render_and_return s map_ok rand

/-! ## Consecutive frame steps -/

/-- The frame steps numbered `t`, `t + 1`, ..., `t + n - 1` run one after the
other from `s`; step `j` maps the overlay with outcome `maps j` and receives
the `rand()` results `rands j`.  The result is the final object and the number
of rotation events performed. -/
def run_frames (maps : Nat → Bool) (rands : Nat → Nat → Nat) :
    Nat → Nat → GstGLRedaction → Option (GstGLRedaction × Nat)
  | 0, _, s => some (s, 0)
  | n + 1, t, s =>
    match gst_gl_redaction_callback s (maps t) (rands t) with
    | none => none
    | some r =>
      match run_frames maps rands n (t + 1) r.state with
      | none => none
      | some out => some (out.1, out.2 + (if rotation_fires s (maps t) then 1 else 0))

/-! ## Reference quantities of the specification -/

/-- The linear interpolation of one edge at phase `t`:
`previous.edge + (target.edge - previous.edge) * phase`. -/
def edge_at (previous target : Int) (t : ℚ) : ℚ :=
  (previous : ℚ) + ((target : ℚ) - (previous : ℚ)) * t

/-- The value fits a 32-bit `int`. -/
def fits_int (v : Int) : Prop := -2147483648 ≤ v ∧ v < 2147483648

instance (v : Int) : Decidable (fits_int v) := by
  unfold fits_int; infer_instance

/-- All four vertices of an uploaded quad (entries 0, 1, 5, 6, 10, 11, 15, 16 of
`vertices`) have their x and y within `[-1, 1]`. -/
def quad_in_ndc (vertices : List ℚ) : Prop :=
  ∀ k ∈ [0, 1, 5, 6, 10, 11, 15, 16], -1 ≤ vertices.getD k 0 ∧ vertices.getD k 0 ≤ 1

/-! ## Concrete engine states -/

/-- The filter object as created (zero-filled arrays, `frame_count` 0), with the
window size stored by `gst_gl_redaction_set_caps` and the overlay present or
not. -/
def created_object (window_width window_height : Int) (image_memory : Bool) :
    GstGLRedaction :=
  { window_width := window_width
    window_height := window_height
    image_memory := image_memory
    redactions := fun _ => emptyRectangle
    prev_redactions := fun _ => emptyRectangle
    frame_count := 0 }

/-- The engine right after `gst_gl_redaction_gl_start` on a 1920x1080 stream with
the overlay loaded, when every `rand()` call of the start returned `r`. -/
def started_object (r : Nat) : GstGLRedaction :=
  (gst_gl_redaction_gl_start (created_object 1920 1080 true) true true (fun _ => r)).1

/-- A 1920x1080 engine with the overlay loaded, between rotations
(`frame_count` 301), in which every region rests at `{-10,-10,90,90}`, partly
left of and above the visible frame: the state after two rotations whose draws
gave that box. -/
def offscreen_object : GstGLRedaction :=
  { window_width := 1920
    window_height := 1080
    image_memory := true
    redactions := fun _ => { left := -10, top := -10, right := 90, bottom := 90 }
    prev_redactions := fun _ => { left := -10, top := -10, right := 90, bottom := 90 }
    frame_count := 301 }

/-! ## Helper lemmas on `Rectangle` -/

theorem Rectangle.eq_iff (a b : Rectangle) : Rectangle.eq a b = true ↔ a = b := by
  cases a; cases b
  simp [Rectangle.eq]
  tauto

theorem Rectangle.is_valid_iff (r : Rectangle) :
    r.is_valid = true ↔ r.left < r.right ∧ r.top < r.bottom := by
  simp [Rectangle.is_valid]

theorem Rectangle.intersection_of_overlap (a b : Rectangle)
    (hx : max a.left b.left < min a.right b.right)
    (hy : max a.top b.top < min a.bottom b.bottom) :
    a.intersection b =
      { left := max a.left b.left, top := max a.top b.top,
        right := min a.right b.right, bottom := min a.bottom b.bottom } := by
  unfold Rectangle.intersection
  simp only []
  rw [if_neg]
  intro h
  rcases h with h | h <;> omega

theorem Rectangle.intersection_of_disjoint (a b : Rectangle)
    (h : max a.left b.left ≥ min a.right b.right ∨
      max a.top b.top ≥ min a.bottom b.bottom) :
    a.intersection b = emptyRectangle := by
  unfold Rectangle.intersection emptyRectangle
  simp only []
  rw [if_pos h]

/-- A valid intersection is the edge-wise max/min box. -/
theorem Rectangle.intersection_valid_overlap (a b : Rectangle)
    (h : (a.intersection b).is_valid = true) :
    max a.left b.left < min a.right b.right ∧
      max a.top b.top < min a.bottom b.bottom := by
  by_contra hc
  have hd : max a.left b.left ≥ min a.right b.right ∨
      max a.top b.top ≥ min a.bottom b.bottom := by
    by_cases h1 : max a.left b.left < min a.right b.right
    · right
      by_contra h2
      exact hc ⟨h1, not_le.mp h2⟩
    · left
      exact not_lt.mp h1
  rw [Rectangle.intersection_of_disjoint a b hd] at h
  simp [emptyRectangle, Rectangle.is_valid] at h

/-! ## Rectangle: intersection contract -/

/-- C1: when the overlap of `a` and `b` is non-degenerate, `intersection a b` is
the edge-wise max/min box, it is contained in both `a` and `b`, and every valid
rectangle contained in both `a` and `b` is contained in it. -/
theorem intersection_maximal (a b : Rectangle)
    (hx : max a.left b.left < min a.right b.right)
    (hy : max a.top b.top < min a.bottom b.bottom) :
    a.intersection b =
        { left := max a.left b.left, top := max a.top b.top,
          right := min a.right b.right, bottom := min a.bottom b.bottom } ∧
      (a.intersection b).containedIn a ∧ (a.intersection b).containedIn b ∧
      ∀ r : Rectangle, r.is_valid = true → r.containedIn a → r.containedIn b →
        r.containedIn (a.intersection b) := by
  rw [Rectangle.intersection_of_overlap a b hx hy]
  refine ⟨rfl, ?_, ?_, ?_⟩
  · simp [Rectangle.containedIn]
  · simp [Rectangle.containedIn]
  · intro r _ ha hb
    obtain ⟨ha1, ha2, ha3, ha4⟩ := ha
    obtain ⟨hb1, hb2, hb3, hb4⟩ := hb
    simp only [Rectangle.containedIn]
    refine ⟨max_le ha1 hb1, max_le ha2 hb2, le_min ha3 hb3, le_min ha4 hb4⟩

/-- Witness for C1: `{0,0,10,10}` and `{5,5,15,15}` give `{5,5,10,10}`. -/
theorem intersection_maximal_witness :
    Rectangle.intersection ⟨0, 0, 10, 10⟩ ⟨5, 5, 15, 15⟩ = ⟨5, 5, 10, 10⟩ ∧
      ∀ r : Rectangle, r.is_valid = true → r.containedIn ⟨0, 0, 10, 10⟩ →
        r.containedIn ⟨5, 5, 15, 15⟩ →
        r.containedIn (Rectangle.intersection ⟨0, 0, 10, 10⟩ ⟨5, 5, 15, 15⟩) :=
  ⟨(intersection_maximal ⟨0, 0, 10, 10⟩ ⟨5, 5, 15, 15⟩ (by decide) (by decide)).1,
    (intersection_maximal ⟨0, 0, 10, 10⟩ ⟨5, 5, 15, 15⟩ (by decide) (by decide)).2.2.2⟩

/-- C2: when the edge-wise max/min box is degenerate in either axis,
`intersection a b` is exactly `{0, 0, 0, 0}` and `is_valid` is false on it. -/
theorem intersection_degenerate_canonical (a b : Rectangle)
    (h : max a.left b.left ≥ min a.right b.right ∨
      max a.top b.top ≥ min a.bottom b.bottom) :
    a.intersection b = { left := 0, top := 0, right := 0, bottom := 0 } ∧
      (a.intersection b).is_valid = false := by
  have he := Rectangle.intersection_of_disjoint a b h
  rw [he]
  exact ⟨rfl, by decide⟩

/-- Witness for C2: `{0,0,10,10}` and `{20,20,30,30}` do not overlap. -/
theorem intersection_degenerate_canonical_witness :
    Rectangle.intersection ⟨0, 0, 10, 10⟩ ⟨20, 20, 30, 30⟩ = ⟨0, 0, 0, 0⟩ ∧
      (Rectangle.intersection ⟨0, 0, 10, 10⟩ ⟨20, 20, 30, 30⟩).is_valid = false :=
  intersection_degenerate_canonical ⟨0, 0, 10, 10⟩ ⟨20, 20, 30, 30⟩ (by decide)

/-- C3: if `intersection a b` is valid, every integer point of the result lies
within both `a` and `b`. -/
theorem intersection_points_in_both (a b : Rectangle)
    (h : (a.intersection b).is_valid = true) (x y : Int)
    (hp : (a.intersection b).contains x y) :
    a.contains x y ∧ b.contains x y := by
  obtain ⟨hx, hy⟩ := Rectangle.intersection_valid_overlap a b h
  rw [Rectangle.intersection_of_overlap a b hx hy] at hp
  simp only [Rectangle.contains] at hp ⊢
  obtain ⟨h1, h2, h3, h4⟩ := hp
  have := max_le_iff.mp h1
  have := max_le_iff.mp h3
  have := lt_min_iff.mp h2
  have := lt_min_iff.mp h4
  omega

/-- Witness for C3: the point `(7, 9)` of `{5,5,10,10}` lies in both operands. -/
theorem intersection_points_in_both_witness :
    Rectangle.contains ⟨0, 0, 10, 10⟩ 7 9 ∧ Rectangle.contains ⟨5, 5, 15, 15⟩ 7 9 :=
  intersection_points_in_both ⟨0, 0, 10, 10⟩ ⟨5, 5, 15, 15⟩ (by decide) 7 9 (by decide)

/-- C4: `intersection` is commutative under `operator==`, for all rectangles. -/
theorem intersection_comm (a b : Rectangle) :
    Rectangle.eq (a.intersection b) (b.intersection a) = true := by
  rw [Rectangle.eq_iff]
  unfold Rectangle.intersection
  simp only [max_comm b.left a.left, max_comm b.top a.top, min_comm b.right a.right,
    min_comm b.bottom a.bottom]

/-- C5: for every rectangle `r`, intersecting with `{0, 0, 0, 0}` on either side
gives `{0, 0, 0, 0}`, and `is_valid` is false on that result. -/
theorem intersection_empty (r : Rectangle) :
    r.intersection ⟨0, 0, 0, 0⟩ = ⟨0, 0, 0, 0⟩ ∧
      Rectangle.intersection ⟨0, 0, 0, 0⟩ r = ⟨0, 0, 0, 0⟩ ∧
      (r.intersection ⟨0, 0, 0, 0⟩).is_valid = false ∧
      (Rectangle.intersection ⟨0, 0, 0, 0⟩ r).is_valid = false := by
  have h1 : r.intersection ⟨0, 0, 0, 0⟩ = emptyRectangle := by
    apply Rectangle.intersection_of_disjoint
    left
    show max r.left 0 ≥ min r.right 0
    exact le_trans (min_le_right _ _) (le_max_right _ _)
  have h2 : Rectangle.intersection ⟨0, 0, 0, 0⟩ r = emptyRectangle := by
    apply Rectangle.intersection_of_disjoint
    left
    show max 0 r.left ≥ min 0 r.right
    exact le_trans (min_le_left _ _) (le_max_left _ _)
  rw [h1, h2]
  exact ⟨rfl, rfl, by decide, by decide⟩

/-- C6: for every rectangle `e` and every valid rectangle `f` contained in `e`,
`e.intersection f == f`. -/
theorem intersection_cover (e f : Rectangle) (hf : f.is_valid = true)
    (hl : e.left ≤ f.left) (ht : e.top ≤ f.top) (hr : f.right ≤ e.right)
    (hb : f.bottom ≤ e.bottom) :
    Rectangle.eq (e.intersection f) f = true := by
  rw [Rectangle.eq_iff]
  obtain ⟨h1, h2⟩ := (Rectangle.is_valid_iff f).mp hf
  have hx : max e.left f.left < min e.right f.right := by
    rw [max_eq_right hl, min_eq_right hr]; exact h1
  have hy : max e.top f.top < min e.bottom f.bottom := by
    rw [max_eq_right ht, min_eq_right hb]; exact h2
  rw [Rectangle.intersection_of_overlap e f hx hy, max_eq_right hl, max_eq_right ht,
    min_eq_right hr, min_eq_right hb]

/-- Witness for C6: `e = {0,0,1000,1000}` covers `f = {5,5,15,15}`. -/
theorem intersection_cover_witness :
    Rectangle.eq (Rectangle.intersection ⟨0, 0, 1000, 1000⟩ ⟨5, 5, 15, 15⟩)
      ⟨5, 5, 15, 15⟩ = true :=
  intersection_cover ⟨0, 0, 1000, 1000⟩ ⟨5, 5, 15, 15⟩ (by decide) (by decide) (by decide)
    (by decide) (by decide)

/-! ## Helper lemmas on the engine -/

theorem wrap32_of_range (v : Int) (h1 : -2147483648 ≤ v) (h2 : v < 2147483648) :
    wrap32 v = v := by
  unfold wrap32
  omega

theorem rotation_box_some (w h : Int) (r0 r1 r2 r3 : Nat)
    (hw : wrap32 (500 + w) ≠ 0) (hh : wrap32 (500 + h) ≠ 0) :
    rotation_box w h r0 r1 r2 r3 =
      some { left := -500 + Int.tmod r0 (wrap32 (500 + w))
             top := -500 + Int.tmod r1 (wrap32 (500 + h))
             right := -500 + Int.tmod r0 (wrap32 (500 + w)) - 50 + Int.tmod r2 200
             bottom := -500 + Int.tmod r1 (wrap32 (500 + h)) - 50 + Int.tmod r3 200 } := by
  unfold rotation_box
  simp only []
  rw [if_neg hw, if_neg hh]

theorem rotate_loop_total (w h : Int) (rand : Nat → Nat)
    (hw : wrap32 (500 + w) ≠ 0) (hh : wrap32 (500 + h) ≠ 0) :
    ∀ (n i k : Nat) (red : Boxes), ∃ out, rotate_loop w h rand n i k red = some out := by
  intro n
  induction n with
  | zero => intro i k red; exact ⟨red, rfl⟩
  | succ n ih =>
    intro i k red
    unfold rotate_loop
    rw [rotation_box_some w h _ _ _ _ hw hh]
    exact ih _ _ _

/-- Every element written by the regeneration loop is the box drawn from its
own four `rand()` results; elements below the start index are untouched. -/
theorem rotate_loop_spec (w h : Int) (rand : Nat → Nat) :
    ∀ (n i k : Nat) (red out : Boxes), rotate_loop w h rand n i k red = some out →
      ∀ j : Nat, (j < i → out j = red j) ∧
        (i ≤ j → j < i + n →
          rotation_box w h (rand (k + 4 * (j - i))) (rand (k + 4 * (j - i) + 1))
            (rand (k + 4 * (j - i) + 2)) (rand (k + 4 * (j - i) + 3)) = some (out j)) := by
  intro n
  induction n with
  | zero =>
    intro i k red out hrun j
    simp only [rotate_loop, Option.some.injEq] at hrun
    subst hrun
    exact ⟨fun _ => rfl, fun h1 h2 => absurd h2 (by omega)⟩
  | succ n ih =>
    intro i k red out hrun j
    unfold rotate_loop at hrun
    cases hb : rotation_box w h (rand k) (rand (k + 1)) (rand (k + 2)) (rand (k + 3)) with
    | none => rw [hb] at hrun; exact absurd hrun (by simp)
    | some b =>
      rw [hb] at hrun
      simp only [] at hrun
      have hrec := ih (i + 1) (k + 4) (Function.update red i b) out hrun
      constructor
      · intro hj
        rw [(hrec j).1 (by omega), Function.update_noteq (by omega)]
      · intro h1 h2
        by_cases hji : j = i
        · subst hji
          rw [(hrec j).1 (by omega), Function.update_same]
          simpa using hb
        · have hidx : k + 4 + 4 * (j - (i + 1)) = k + 4 * (j - i) := by omega
          have := (hrec j).2 (by omega) (by omega)
          rw [hidx] at this
          exact this

/-- Every element written by the initialization loop is the box drawn from its
own `rand()` results; elements below the start index are untouched. -/
theorem gl_start_loop_spec (rand : Nat → Nat) :
    ∀ (n i k : Nat) (red prev : Boxes) (j : Nat),
      (j < i → (gl_start_loop rand n i k red prev).1 j = red j ∧
        (gl_start_loop rand n i k red prev).2 j = prev j) ∧
      (i ≤ j → j < i + n →
        (gl_start_loop rand n i k red prev).1 j =
            start_target_box (rand (k + 8 * (j - i))) (rand (k + 8 * (j - i) + 1))
              (rand (k + 8 * (j - i) + 2)) (rand (k + 8 * (j - i) + 3)) ∧
          (gl_start_loop rand n i k red prev).2 j =
            start_prev_box (rand (k + 8 * (j - i) + 4)) (rand (k + 8 * (j - i) + 5))
              (rand (k + 8 * (j - i) + 6)) (rand (k + 8 * (j - i) + 7))) := by
  intro n
  induction n with
  | zero =>
    intro i k red prev j
    exact ⟨fun _ => ⟨rfl, rfl⟩, fun h1 h2 => absurd h2 (by omega)⟩
  | succ n ih =>
    intro i k red prev j
    unfold gl_start_loop
    have hrec := ih (i + 1) (k + 8)
      (Function.update red i
        (start_target_box (rand k) (rand (k + 1)) (rand (k + 2)) (rand (k + 3))))
      (Function.update prev i
        (start_prev_box (rand (k + 4)) (rand (k + 5)) (rand (k + 6)) (rand (k + 7)))) j
    constructor
    · intro hj
      have hlt : j < i + 1 := by omega
      have hne : j ≠ i := by omega
      constructor
      · rw [(hrec.1 hlt).1, Function.update_noteq hne]
      · rw [(hrec.1 hlt).2, Function.update_noteq hne]
    · intro h1 h2
      by_cases hji : j = i
      · subst hji
        have hlt : j < j + 1 := by omega
        constructor
        · rw [(hrec.1 hlt).1, Function.update_same]; simp
        · rw [(hrec.1 hlt).2, Function.update_same]; simp
      · have hidx : k + 8 + 8 * (j - (i + 1)) = k + 8 * (j - i) := by omega
        have := hrec.2 (by omega) (by omega)
        rw [hidx] at this
        exact this

/-- The callback in a frame step where a rotation fires and the regeneration
loop completes. -/
theorem callback_rotation (s : GstGLRedaction) (rand : Nat → Nat) (red : Boxes)
    (hi : s.image_memory = true)
    (hf : to_size_t s.frame_count % REDACTION_ROTATE_THRESHOLD = 0)
    (hrun : rotate_loop s.window_width s.window_height rand NUM_REDACTIONS 0 0
      s.redactions = some red) :
    gst_gl_redaction_callback s true rand =
      some { state := { s with frame_count := wrap32 (s.frame_count + 1)
                               prev_redactions := s.redactions
                               redactions := red }
             draws := draw_loop { s with frame_count := wrap32 (s.frame_count + 1)
                                         prev_redactions := s.redactions
                                         redactions := red } NUM_REDACTIONS 0
             ret := true } := by
  unfold gst_gl_redaction_callback
  simp only [hi, Bool.not_true, Bool.false_eq_true, if_false, hf, if_true, hrun]

/-- The fields left by a frame step where a rotation fires. -/
theorem callback_rotation_fields (s : GstGLRedaction) (rand : Nat → Nat) (red : Boxes)
    (hi : s.image_memory = true)
    (hf : to_size_t s.frame_count % REDACTION_ROTATE_THRESHOLD = 0)
    (hrun : rotate_loop s.window_width s.window_height rand NUM_REDACTIONS 0 0
      s.redactions = some red) :
    ∃ r, gst_gl_redaction_callback s true rand = some r ∧
      r.state.frame_count = wrap32 (s.frame_count + 1) ∧
      r.state.prev_redactions = s.redactions ∧
      r.state.redactions = red ∧
      r.state.window_width = s.window_width ∧
      r.state.window_height = s.window_height ∧
      r.state.image_memory = s.image_memory ∧
      r.ret = true :=
  ⟨_, callback_rotation s rand red hi hf hrun, rfl, rfl, rfl, rfl, rfl, rfl, rfl⟩

theorem to_gint_intCast (z : Int) : to_gint (z : ℚ) = z := by
  unfold to_gint
  split <;> simp


/-! ## Position generator -/

theorem rotation_box_shape (w h : Int) (r0 r1 r2 r3 : Nat) (b : Rectangle)
    (hb : rotation_box w h r0 r1 r2 r3 = some b) :
    b.right - b.left = ((r2 % 200 : Nat) : Int) - 50 ∧
      b.bottom - b.top = ((r3 % 200 : Nat) : Int) - 50 := by
  unfold rotation_box at hb
  simp only [] at hb
  split at hb
  · exact absurd hb (by simp)
  · split at hb
    · exact absurd hb (by simp)
    · simp only [Option.some.injEq] at hb
      subst hb
      have e2 : Int.tmod (r2 : Int) 200 = ((r2 % 200 : Nat) : Int) := rfl
      have e3 : Int.tmod (r3 : Int) 200 = ((r3 % 200 : Nat) : Int) := rfl
      simp only [e2, e3]
      constructor <;> omega

theorem start_target_box_shape (r0 r1 r2 r3 : Nat) :
    (start_target_box r0 r1 r2 r3).right - (start_target_box r0 r1 r2 r3).left =
        ((r2 % 100 : Nat) : Int) - 50 ∧
      (start_target_box r0 r1 r2 r3).bottom - (start_target_box r0 r1 r2 r3).top =
        ((r3 % 100 : Nat) : Int) - 50 := by
  have e2 : Int.tmod (r2 : Int) 100 = ((r2 % 100 : Nat) : Int) := rfl
  have e3 : Int.tmod (r3 : Int) 100 = ((r3 % 100 : Nat) : Int) := rfl
  simp only [start_target_box, e2, e3]
  constructor <;> omega

theorem start_prev_box_shape (r0 r1 r2 r3 : Nat) :
    (start_prev_box r0 r1 r2 r3).right - (start_prev_box r0 r1 r2 r3).left =
        ((r2 % 100 : Nat) : Int) - 50 ∧
      (start_prev_box r0 r1 r2 r3).bottom - (start_prev_box r0 r1 r2 r3).top =
        ((r3 % 100 : Nat) : Int) - 50 := by
  have e2 : Int.tmod (r2 : Int) 100 = ((r2 % 100 : Nat) : Int) := rfl
  have e3 : Int.tmod (r3 : Int) 100 = ((r3 % 100 : Nat) : Int) := rfl
  simp only [start_prev_box, e2, e3]
  constructor <;> omega

theorem is_valid_of_shape (b : Rectangle) (d e : Nat)
    (h1 : b.right - b.left = (d : Int) - 50) (h2 : b.bottom - b.top = (e : Int) - 50) :
    (b.is_valid = true ↔ 50 < d ∧ 50 < e) := by
  rw [Rectangle.is_valid_iff]
  omega


theorem wrap32_window_ne_zero (w : Int) (h0 : 0 ≤ w) (h1 : w < 2147483648) :
    wrap32 (500 + w) ≠ 0 := by
  unfold wrap32
  omega

theorem to_gint_of_nonneg (q : ℚ) (z : Int) (h0 : 0 ≤ q) (h1 : (z : ℚ) ≤ q)
    (h2 : q < (z : ℚ) + 1) : to_gint q = z := by
  unfold to_gint
  rw [if_pos h0, Int.floor_eq_iff]
  exact ⟨h1, h2⟩

theorem to_gint_of_neg (q : ℚ) (z : Int) (h0 : q < 0) (h1 : (z : ℚ) - 1 < q)
    (h2 : q ≤ (z : ℚ)) : to_gint q = z := by
  unfold to_gint
  rw [if_neg (not_le.mpr h0), Int.ceil_eq_iff]
  exact ⟨h1, h2⟩

theorem started_object_redactions (r i : Nat) (hi : i < NUM_REDACTIONS) :
    (started_object r).redactions i = start_target_box r r r r ∧
      (started_object r).prev_redactions i = start_prev_box r r r r := by
  have h := (gl_start_loop_spec (fun _ => r) NUM_REDACTIONS 0 0 (fun _ => emptyRectangle)
    (fun _ => emptyRectangle) i).2 (Nat.zero_le i) (by omega)
  simp only [started_object, gst_gl_redaction_gl_start, created_object, Bool.not_true,
    Bool.false_eq_true, if_false]
  exact h

/-- C7 (as stated, refuted): on a 1920x1080 stream with every `rand()` result 0,
the target written for region 0 at the first rotation is `{-500,-500,-550,-550}`,
and the boxes written for region 0 at initialization are
`{-500,-500,-550,-550}` and `{-100,-100,-150,-150}`; none of them is valid. -/
theorem generator_writes_invalid_box :
    rotation_fires (started_object 0) true ∧
      (∃ r, gst_gl_redaction_callback (started_object 0) true (fun _ => 0) = some r ∧
        r.state.redactions 0 = ⟨-500, -500, -550, -550⟩ ∧
        (r.state.redactions 0).is_valid = false) ∧
      (started_object 0).redactions 0 = ⟨-500, -500, -550, -550⟩ ∧
      ((started_object 0).redactions 0).is_valid = false ∧
      (started_object 0).prev_redactions 0 = ⟨-100, -100, -150, -150⟩ ∧
      ((started_object 0).prev_redactions 0).is_valid = false := by
  have hfire : rotation_fires (started_object 0) true := by decide
  have hinit := started_object_redactions 0 0 (by decide)
  have ht : start_target_box 0 0 0 0 = ⟨-500, -500, -550, -550⟩ := by decide
  have hp : start_prev_box 0 0 0 0 = ⟨-100, -100, -150, -150⟩ := by decide
  refine ⟨hfire, ?_, ?_, ?_, ?_, ?_⟩
  · obtain ⟨red, hred⟩ := rotate_loop_total (started_object 0).window_width
      (started_object 0).window_height (fun _ => 0) (by decide) (by decide) NUM_REDACTIONS 0 0
      (started_object 0).redactions
    have hbox := (rotate_loop_spec _ _ _ _ _ _ _ _ hred 0).2 (Nat.le_refl 0) (by decide)
    have hval : rotation_box (started_object 0).window_width (started_object 0).window_height
        0 0 0 0 = some ⟨-500, -500, -550, -550⟩ := by decide
    simp only [Nat.sub_self, Nat.mul_zero, Nat.add_zero] at hbox
    rw [hval] at hbox
    have hr0 : red 0 = ⟨-500, -500, -550, -550⟩ := (Option.some.inj hbox).symm
    refine ⟨_, callback_rotation _ _ red hfire.1 hfire.2.2 hred, ?_, ?_⟩
    · exact hr0
    · show (red 0).is_valid = false
      rw [hr0]; decide
  · rw [hinit.1, ht]
  · rw [hinit.1, ht]; decide
  · rw [hinit.2, hp]
  · rw [hinit.2, hp]; decide

/-- C7 (amended): for every window size with `0 ≤ window_width` and
`0 ≤ window_height` and every outcome of the random source, a frame step in
which a rotation fires completes, and every rectangle it writes into the target
array has `right - left = rand() % 200 - 50` and `bottom - top = rand() % 200 - 50`
for its own two size draws (so both lie in `[-50, 149]`), and is valid exactly
when both size draws exceed 50; every target and previous rectangle written at
initialization has `right - left = rand() % 100 - 50` and
`bottom - top = rand() % 100 - 50` (both in `[-50, 49]`), and is valid exactly
when both of its size draws exceed 50. -/
theorem generator_box_shape (s : GstGLRedaction) (rand : Nat → Nat) (shader_ok : Bool)
    (hw0 : 0 ≤ s.window_width) (hw1 : s.window_width < 2147483648)
    (hh0 : 0 ≤ s.window_height) (hh1 : s.window_height < 2147483648) :
    (rotation_fires s true →
      ∃ r, gst_gl_redaction_callback s true rand = some r ∧
        ∀ i, i < NUM_REDACTIONS →
          (r.state.redactions i).right - (r.state.redactions i).left =
              ((rand (4 * i + 2) % 200 : Nat) : Int) - 50 ∧
            (r.state.redactions i).bottom - (r.state.redactions i).top =
              ((rand (4 * i + 3) % 200 : Nat) : Int) - 50 ∧
            ((r.state.redactions i).is_valid = true ↔
              50 < rand (4 * i + 2) % 200 ∧ 50 < rand (4 * i + 3) % 200)) ∧
      ∀ i, i < NUM_REDACTIONS →
        (((gst_gl_redaction_gl_start s true shader_ok rand).1.redactions i).right -
              ((gst_gl_redaction_gl_start s true shader_ok rand).1.redactions i).left =
            ((rand (8 * i + 2) % 100 : Nat) : Int) - 50 ∧
          ((gst_gl_redaction_gl_start s true shader_ok rand).1.redactions i).bottom -
              ((gst_gl_redaction_gl_start s true shader_ok rand).1.redactions i).top =
            ((rand (8 * i + 3) % 100 : Nat) : Int) - 50 ∧
          (((gst_gl_redaction_gl_start s true shader_ok rand).1.redactions i).is_valid = true ↔
            50 < rand (8 * i + 2) % 100 ∧ 50 < rand (8 * i + 3) % 100)) ∧
        (((gst_gl_redaction_gl_start s true shader_ok rand).1.prev_redactions i).right -
              ((gst_gl_redaction_gl_start s true shader_ok rand).1.prev_redactions i).left =
            ((rand (8 * i + 6) % 100 : Nat) : Int) - 50 ∧
          ((gst_gl_redaction_gl_start s true shader_ok rand).1.prev_redactions i).bottom -
              ((gst_gl_redaction_gl_start s true shader_ok rand).1.prev_redactions i).top =
            ((rand (8 * i + 7) % 100 : Nat) : Int) - 50 ∧
          (((gst_gl_redaction_gl_start s true shader_ok rand).1.prev_redactions i).is_valid =
              true ↔
            50 < rand (8 * i + 6) % 100 ∧ 50 < rand (8 * i + 7) % 100)) := by
  constructor
  · intro hfire
    have hw := wrap32_window_ne_zero s.window_width hw0 hw1
    have hh := wrap32_window_ne_zero s.window_height hh0 hh1
    obtain ⟨red, hred⟩ := rotate_loop_total s.window_width s.window_height rand hw hh
      NUM_REDACTIONS 0 0 s.redactions
    refine ⟨_, callback_rotation s rand red hfire.1 hfire.2.2 hred, ?_⟩
    intro i hi
    have hbox := (rotate_loop_spec _ _ _ _ _ _ _ _ hred i).2 (Nat.zero_le i) (by omega)
    simp only [Nat.sub_zero, Nat.zero_add] at hbox
    have hshape := rotation_box_shape _ _ _ _ _ _ _ hbox
    exact ⟨hshape.1, hshape.2, is_valid_of_shape _ _ _ hshape.1 hshape.2⟩
  · intro i hi
    have h := (gl_start_loop_spec rand NUM_REDACTIONS 0 0 s.redactions s.prev_redactions
      i).2 (Nat.zero_le i) (by omega)
    simp only [Nat.sub_zero, Nat.zero_add] at h
    simp only [gst_gl_redaction_gl_start, Bool.not_true, Bool.false_eq_true, if_false]
    rw [h.1, h.2]
    have ht := start_target_box_shape (rand (8 * i)) (rand (8 * i + 1)) (rand (8 * i + 2))
      (rand (8 * i + 3))
    have hp := start_prev_box_shape (rand (8 * i + 4)) (rand (8 * i + 5)) (rand (8 * i + 6))
      (rand (8 * i + 7))
    exact ⟨⟨ht.1, ht.2, is_valid_of_shape _ _ _ ht.1 ht.2⟩,
      ⟨hp.1, hp.2, is_valid_of_shape _ _ _ hp.1 hp.2⟩⟩


/-- Witness for C7 (amended): the first frame step of a 1920x1080 engine with
every `rand()` result 77. -/
theorem generator_box_shape_witness :
    ∃ r, gst_gl_redaction_callback (created_object 1920 1080 true) true (fun _ => 77) =
        some r ∧
      ∀ i, i < NUM_REDACTIONS →
        (r.state.redactions i).right - (r.state.redactions i).left =
            (((fun _ => 77) (4 * i + 2) % 200 : Nat) : Int) - 50 ∧
          (r.state.redactions i).bottom - (r.state.redactions i).top =
            (((fun _ => 77) (4 * i + 3) % 200 : Nat) : Int) - 50 ∧
          ((r.state.redactions i).is_valid = true ↔
            50 < (fun _ => 77) (4 * i + 2) % 200 ∧ 50 < (fun _ => 77) (4 * i + 3) % 200) :=
  (generator_box_shape (created_object 1920 1080 true) (fun _ => 77) true (by decide)
    (by decide) (by decide) (by decide)).1 (by decide)

/-! ## Rotation -/

/-- C8: in every frame step in which a rotation event fires, the step completes
whenever neither modulus of the position generator is zero, and in the state it
leaves `prev_redactions[i]` equals `redactions[i]` as it was before the step,
for every region index `i` below 1000 and every outcome of the random source. -/
theorem rotation_prev_is_old_target (s : GstGLRedaction) (map_ok : Bool)
    (rand : Nat → Nat) (hfire : rotation_fires s map_ok) :
    (wrap32 (500 + s.window_width) ≠ 0 → wrap32 (500 + s.window_height) ≠ 0 →
        ∃ r, gst_gl_redaction_callback s map_ok rand = some r) ∧
      ∀ r, gst_gl_redaction_callback s map_ok rand = some r →
        ∀ i, i < NUM_REDACTIONS → r.state.prev_redactions i = s.redactions i := by
  obtain ⟨hi, hm, hf⟩ := hfire
  subst hm
  constructor
  · intro hw hh
    obtain ⟨red, hred⟩ := rotate_loop_total s.window_width s.window_height rand hw hh
      NUM_REDACTIONS 0 0 s.redactions
    exact ⟨_, callback_rotation s rand red hi hf hred⟩
  · intro r hr i _
    cases hred : rotate_loop s.window_width s.window_height rand NUM_REDACTIONS 0 0
        s.redactions with
    | none =>
      unfold gst_gl_redaction_callback at hr
      simp only [hi, Bool.not_true, Bool.false_eq_true, if_false, hf, if_true, hred] at hr
      exact absurd hr (by simp)
    | some red =>
      rw [callback_rotation s rand red hi hf hred] at hr
      simp only [Option.some.injEq] at hr
      subst hr
      rfl

/-- Witness for C8: the first frame step of a freshly started 1920x1080 engine. -/
theorem rotation_prev_is_old_target_witness :
    rotation_fires (started_object 660) true ∧
      (∃ r, gst_gl_redaction_callback (started_object 660) true (fun _ => 960) = some r) ∧
      ∀ r, gst_gl_redaction_callback (started_object 660) true (fun _ => 960) = some r →
        ∀ i, i < NUM_REDACTIONS →
          r.state.prev_redactions i = (started_object 660).redactions i :=
  ⟨by decide,
    (rotation_prev_is_old_target (started_object 660) true (fun _ => 960) (by decide)).1
      (by decide) (by decide),
    (rotation_prev_is_old_target (started_object 660) true (fun _ => 960) (by decide)).2⟩

/-! ## Interpolation -/

theorem interp_of_rem_zero (frame_count : Int)
    (h : to_size_t frame_count % REDACTION_ROTATE_THRESHOLD = 0) : interp frame_count = 0 := by
  unfold interp
  rw [h]
  simp

/-- C9 (the code at a rotation frame): on a freshly started 1920x1080 engine
(every `rand()` of the start returned 660) the first frame step fires a
rotation; with every `rand()` of the step returning 960 the step leaves
`frame_count = 1`, so the phase used by the same frame is `1/300`, not 0, and
region 0, whose new previous rectangle is `{160,160,170,170}` and whose new
target is `{460,460,570,570}`, is interpolated to `{161,161,171,171}`. -/
theorem rotation_frame_phase_not_zero :
    rotation_fires (started_object 660) true ∧
      ∃ r, gst_gl_redaction_callback (started_object 660) true (fun _ => 960) = some r ∧
        r.state.frame_count = 1 ∧
        interp r.state.frame_count = 1 / 300 ∧
        r.state.prev_redactions 0 = ⟨160, 160, 170, 170⟩ ∧
        r.state.redactions 0 = ⟨460, 460, 570, 570⟩ ∧
        to_check (interpolate (r.state.prev_redactions 0) (r.state.redactions 0)
          r.state.frame_count) = ⟨161, 161, 171, 171⟩ := by
  have hfire : rotation_fires (started_object 660) true := by decide
  have hinit := (started_object_redactions 660 0 (by decide)).1
  have ht : start_target_box 660 660 660 660 = ⟨160, 160, 170, 170⟩ := by decide
  obtain ⟨red, hred⟩ := rotate_loop_total (started_object 660).window_width
    (started_object 660).window_height (fun _ => 960) (by decide) (by decide)
    NUM_REDACTIONS 0 0 (started_object 660).redactions
  have hbox := (rotate_loop_spec _ _ _ _ _ _ _ _ hred 0).2 (Nat.le_refl 0) (by decide)
  have hval : rotation_box (started_object 660).window_width
      (started_object 660).window_height 960 960 960 960 = some ⟨460, 460, 570, 570⟩ := by
    decide
  simp only [Nat.sub_self, Nat.mul_zero, Nat.add_zero] at hbox
  rw [hval] at hbox
  have hr0 : red 0 = ⟨460, 460, 570, 570⟩ := (Option.some.inj hbox).symm
  have hfc : wrap32 ((started_object 660).frame_count + 1) = 1 := by decide
  have hph : interp 1 = 1 / 300 := by
    have h1 : to_size_t 1 % REDACTION_ROTATE_THRESHOLD = 1 := by decide
    unfold interp
    rw [h1]
    norm_num [REDACTION_ROTATE_THRESHOLD]
  obtain ⟨r, hr, h1, h2, h3, -⟩ := callback_rotation_fields _ _ red hfire.1 hfire.2.2 hred
  refine ⟨hfire, r, hr, ?_, ?_, ?_, ?_, ?_⟩
  · rw [h1]; exact hfc
  · rw [h1, hfc, hph]
  · rw [h2, hinit, ht]
  · rw [h3]; exact hr0
  · rw [h1, h2, h3, hfc, hinit, ht, hr0]
    have hd1 : wrap32 (460 - 160) = 300 := by decide
    have hd2 : wrap32 (570 - 170) = 400 := by decide
    have hw : to_gint ((170 : ℚ) + 400 * (1 / 300) - (160 + 300 * (1 / 300))) = 10 :=
      to_gint_of_nonneg _ 10 (by norm_num) (by norm_num) (by norm_num)
    have hx : to_gint ((160 : ℚ) + 300 * (1 / 300)) = 161 :=
      to_gint_of_nonneg _ 161 (by norm_num) (by norm_num) (by norm_num)
    have hr : to_gint ((160 : ℚ) + 300 * (1 / 300) + 10) = 171 :=
      to_gint_of_nonneg _ 171 (by norm_num) (by norm_num) (by norm_num)
    simp only [to_check, interpolate, hph, hd1, hd2, Int.cast_ofNat, hw, hx, hr]

/-- C10: when the `frame_count` read by the interpolation is a multiple of the
rotation threshold, the phase is 0 and, for every pair of rectangles `prev` and
`cur` (equal or not), the interpolated rectangle
`{(gint)x, (gint)y, (gint)(x+render_width), (gint)(y+render_height)}` equals
`prev` in all four edges. -/
theorem interpolate_phase_zero (prev cur : Rectangle) (frame_count : Int)
    (h : to_size_t frame_count % REDACTION_ROTATE_THRESHOLD = 0) :
    interp frame_count = 0 ∧ to_check (interpolate prev cur frame_count) = prev := by
  have h0 := interp_of_rem_zero frame_count h
  refine ⟨h0, ?_⟩
  have hx : ∀ a d : Int, (a : ℚ) + (d : ℚ) * 0 = ((a : Int) : ℚ) := by
    intro a d; simp
  have hs : ∀ a b : Int, (a : ℚ) + (b : ℚ) * 0 - ((b : ℚ) + 0) = ((a - b : Int) : ℚ) := by
    intro a b; push_cast; ring
  cases prev with
  | mk l t r b =>
    simp only [to_check, interpolate, h0, mul_zero, add_zero, to_gint_intCast]
    have e1 : to_gint ((r : ℚ) - (l : ℚ)) = r - l := by
      rw [← Int.cast_sub]; exact to_gint_intCast _
    have e2 : to_gint ((b : ℚ) - (t : ℚ)) = b - t := by
      rw [← Int.cast_sub]; exact to_gint_intCast _
    rw [e1, e2]
    have e3 : to_gint ((l : ℚ) + ((r - l : Int) : ℚ)) = r := by
      rw [← Int.cast_add]; rw [to_gint_intCast]; omega
    have e4 : to_gint ((t : ℚ) + ((b - t : Int) : ℚ)) = b := by
      rw [← Int.cast_add]; rw [to_gint_intCast]; omega
    rw [e3, e4]

/-- Witness for C10: `frame_count = 300`, from `{160,160,170,170}` toward
`{460,460,570,570}`. -/
theorem interpolate_phase_zero_witness :
    to_size_t 300 % REDACTION_ROTATE_THRESHOLD = 0 ∧ interp 300 = 0 ∧
      to_check (interpolate ⟨160, 160, 170, 170⟩ ⟨460, 460, 570, 570⟩ 300) =
        ⟨160, 160, 170, 170⟩ :=
  ⟨by decide, interpolate_phase_zero ⟨160, 160, 170, 170⟩ ⟨460, 460, 570, 570⟩ 300 (by decide)⟩


theorem to_size_t_of_nonneg (v : Int) (h0 : 0 ≤ v) (h1 : v < 2147483648) :
    to_size_t v = v.toNat := by
  unfold to_size_t
  congr 1
  omega

/-- In a frame step where a rotation fires from a `frame_count` in
`[0, INT_MAX)`, the phase used by the same frame is `1/300`. -/
theorem interp_after_rotation (frame_count : Int) (h0 : 0 ≤ frame_count)
    (h1 : frame_count < 2147483647)
    (hf : to_size_t frame_count % REDACTION_ROTATE_THRESHOLD = 0) :
    interp (wrap32 (frame_count + 1)) = 1 / 300 := by
  rw [wrap32_of_range _ (by omega) (by omega)]
  rw [to_size_t_of_nonneg _ h0 (by omega)] at hf
  unfold interp
  rw [to_size_t_of_nonneg _ (by omega) (by omega)]
  have : (frame_count + 1).toNat % REDACTION_ROTATE_THRESHOLD = 1 := by
    unfold REDACTION_ROTATE_THRESHOLD at hf ⊢
    omega
  rw [this]
  norm_num [REDACTION_ROTATE_THRESHOLD]


/-! ## Frame steps without a rotation -/

/-- Without an overlay, or when its mapping fails, the callback leaves the
object untouched, draws no overlay quad and returns `FALSE`. -/
theorem callback_no_overlay (s : GstGLRedaction) (map_ok : Bool) (rand : Nat → Nat)
    (h : s.image_memory = false ∨ map_ok = false) :
    gst_gl_redaction_callback s map_ok rand = some { state := s, draws := [], ret := false } := by
  unfold gst_gl_redaction_callback
  rcases h with h | h
  · simp [h]
  · cases hi : s.image_memory <;> simp [h]

/-- The callback in a frame step with the overlay mapped and no rotation due. -/
theorem callback_no_rotation (s : GstGLRedaction) (rand : Nat → Nat)
    (hi : s.image_memory = true)
    (hf : to_size_t s.frame_count % REDACTION_ROTATE_THRESHOLD ≠ 0) :
    gst_gl_redaction_callback s true rand =
      some { state := { s with frame_count := wrap32 (s.frame_count + 1) }
             draws := draw_loop { s with frame_count := wrap32 (s.frame_count + 1) }
               NUM_REDACTIONS 0
             ret := true } := by
  unfold gst_gl_redaction_callback
  simp only [hi, Bool.not_true, Bool.false_eq_true, if_false, hf]

/-- The fields left by a frame step with the overlay mapped and no rotation due. -/
theorem callback_no_rotation_fields (s : GstGLRedaction) (rand : Nat → Nat)
    (hi : s.image_memory = true)
    (hf : to_size_t s.frame_count % REDACTION_ROTATE_THRESHOLD ≠ 0) :
    ∃ r, gst_gl_redaction_callback s true rand = some r ∧
      r.state.frame_count = wrap32 (s.frame_count + 1) ∧
      r.state.prev_redactions = s.prev_redactions ∧
      r.state.redactions = s.redactions ∧
      r.state.window_width = s.window_width ∧
      r.state.window_height = s.window_height ∧
      r.state.image_memory = s.image_memory ∧
      r.ret = true :=
  ⟨_, callback_no_rotation s rand hi hf, rfl, rfl, rfl, rfl, rfl, rfl, rfl⟩

/-- Every completed frame step with the overlay mapped leaves
`frame_count` incremented (with wrap) and returns `TRUE`; the window size and
the overlay are untouched; the draw calls are those of the drawing loop. -/
theorem callback_overlay_result (s : GstGLRedaction) (rand : Nat → Nat) (r : CallbackResult)
    (hi : s.image_memory = true) (hr : gst_gl_redaction_callback s true rand = some r) :
    r.state.frame_count = wrap32 (s.frame_count + 1) ∧
      r.state.window_width = s.window_width ∧
      r.state.window_height = s.window_height ∧
      r.state.image_memory = s.image_memory ∧
      r.ret = true ∧
      r.draws = draw_loop r.state NUM_REDACTIONS 0 := by
  by_cases hf : to_size_t s.frame_count % REDACTION_ROTATE_THRESHOLD = 0
  · cases hred : rotate_loop s.window_width s.window_height rand NUM_REDACTIONS 0 0
        s.redactions with
    | none =>
      unfold gst_gl_redaction_callback at hr
      simp only [hi, Bool.not_true, Bool.false_eq_true, if_false, hf, if_true, hred] at hr
      exact absurd hr (by simp)
    | some red =>
      rw [callback_rotation s rand red hi hf hred] at hr
      simp only [Option.some.injEq] at hr
      subst hr
      exact ⟨rfl, rfl, rfl, rfl, rfl, rfl⟩
  · rw [callback_no_rotation s rand hi hf] at hr
    simp only [Option.some.injEq] at hr
    subst hr
    exact ⟨rfl, rfl, rfl, rfl, rfl, rfl⟩

/-- A frame step with the overlay mapped completes unless a rotation is due and
a modulus of the position generator is zero. -/
theorem callback_overlay_total (s : GstGLRedaction) (rand : Nat → Nat)
    (hi : s.image_memory = true)
    (h : to_size_t s.frame_count % REDACTION_ROTATE_THRESHOLD ≠ 0 ∨
      (wrap32 (500 + s.window_width) ≠ 0 ∧ wrap32 (500 + s.window_height) ≠ 0)) :
    ∃ r, gst_gl_redaction_callback s true rand = some r := by
  by_cases hf : to_size_t s.frame_count % REDACTION_ROTATE_THRESHOLD = 0
  · rcases h with h | ⟨hw, hh⟩
    · exact absurd hf h
    · obtain ⟨red, hred⟩ := rotate_loop_total s.window_width s.window_height rand hw hh
        NUM_REDACTIONS 0 0 s.redactions
      exact ⟨_, callback_rotation s rand red hi hf hred⟩
  · exact ⟨_, callback_no_rotation s rand hi hf⟩

theorem to_size_t_rem_of_nonneg (v : Int) (h0 : 0 ≤ v) (h1 : v < 2147483648) :
    to_size_t v % REDACTION_ROTATE_THRESHOLD = (v % 300).toNat := by
  rw [to_size_t_of_nonneg v h0 h1]
  unfold REDACTION_ROTATE_THRESHOLD
  omega


/-- C12 (as stated, refuted): with no overlay loaded a frame step of a created
1920x1080 engine leaves `frame_count` at 0 instead of raising it to 1. -/
theorem frame_count_unchanged_without_overlay :
    ∃ r, gst_gl_redaction_callback (created_object 1920 1080 false) true (fun _ => 0) =
        some r ∧
      r.state.frame_count = 0 ∧
      r.state.frame_count ≠ (created_object 1920 1080 false).frame_count + 1 := by
  refine ⟨_, callback_no_overlay (created_object 1920 1080 false) true (fun _ => 0)
    (Or.inl rfl), ?_, ?_⟩
  · rfl
  · show (created_object 1920 1080 false).frame_count ≠
      (created_object 1920 1080 false).frame_count + 1
    decide

/-- C12 (amended): for every engine state whose `frame_count` is below
`INT_MAX`, any window size: when the overlay is present and mapped, one frame
step completes unless a rotation is due and `500 + window_width` or
`500 + window_height` is zero, and every completed step increases `frame_count`
by exactly one; when the overlay is absent or its mapping fails, the step
completes and leaves `frame_count` unchanged. -/
theorem frame_count_step (s : GstGLRedaction) (map_ok : Bool) (rand : Nat → Nat)
    (h0 : -2147483648 ≤ s.frame_count) (h1 : s.frame_count < 2147483647) :
    (s.image_memory = true ∧ map_ok = true →
        ((to_size_t s.frame_count % REDACTION_ROTATE_THRESHOLD ≠ 0 ∨
            (wrap32 (500 + s.window_width) ≠ 0 ∧ wrap32 (500 + s.window_height) ≠ 0)) →
          ∃ r, gst_gl_redaction_callback s map_ok rand = some r) ∧
        ∀ r, gst_gl_redaction_callback s map_ok rand = some r →
          r.state.frame_count = s.frame_count + 1) ∧
      (s.image_memory = false ∨ map_ok = false →
        ∃ r, gst_gl_redaction_callback s map_ok rand = some r ∧
          r.state.frame_count = s.frame_count) := by
  constructor
  · rintro ⟨hi, hm⟩
    subst hm
    refine ⟨callback_overlay_total s rand hi, ?_⟩
    intro r hr
    rw [(callback_overlay_result s rand r hi hr).1]
    exact wrap32_of_range _ (by omega) (by omega)
  · intro h
    exact ⟨_, callback_no_overlay s map_ok rand h, rfl⟩

/-- Witness for C12 (amended): the first frame step of a freshly started
1920x1080 engine with the overlay loaded. -/
theorem frame_count_step_witness :
    (∃ r, gst_gl_redaction_callback (started_object 660) true (fun _ => 960) = some r) ∧
      ∀ r, gst_gl_redaction_callback (started_object 660) true (fun _ => 960) = some r →
        r.state.frame_count = (started_object 660).frame_count + 1 :=
  ⟨((frame_count_step (started_object 660) true (fun _ => 960) (by decide) (by decide)).1
      ⟨by decide, rfl⟩).1 (Or.inr ⟨by decide, by decide⟩),
    ((frame_count_step (started_object 660) true (fun _ => 960) (by decide) (by decide)).1
      ⟨by decide, rfl⟩).2⟩

/-- C19: in every frame step in which no rotation fires, the step completes,
`redactions[i]` and `prev_redactions[i]` are unchanged for every region `i`, and
the object differs from the one before the step in `frame_count` at most. -/
theorem no_rotation_population_read_only (s : GstGLRedaction) (map_ok : Bool)
    (rand : Nat → Nat) (h : ¬ rotation_fires s map_ok) :
    ∃ r, gst_gl_redaction_callback s map_ok rand = some r ∧
      (∀ i, r.state.redactions i = s.redactions i) ∧
      (∀ i, r.state.prev_redactions i = s.prev_redactions i) ∧
      r.state = { s with frame_count := r.state.frame_count } := by
  by_cases hov : s.image_memory = false ∨ map_ok = false
  · exact ⟨_, callback_no_overlay s map_ok rand hov, fun _ => rfl, fun _ => rfl, rfl⟩
  · have hi : s.image_memory = true := by
      cases hs : s.image_memory
      · exact absurd (Or.inl hs) hov
      · rfl
    have hm : map_ok = true := by
      cases hs : map_ok
      · exact absurd (Or.inr hs) hov
      · rfl
    subst hm
    have hf : to_size_t s.frame_count % REDACTION_ROTATE_THRESHOLD ≠ 0 :=
      fun hz => h ⟨hi, rfl, hz⟩
    exact ⟨_, callback_no_rotation s rand hi hf, fun _ => rfl, fun _ => rfl, rfl⟩

/-- Witness for C19: a frame step of the 1920x1080 engine at `frame_count` 301. -/
theorem no_rotation_population_read_only_witness :
    ¬ rotation_fires offscreen_object true ∧
      ∃ r, gst_gl_redaction_callback offscreen_object true (fun _ => 0) = some r ∧
        (∀ i, r.state.redactions i = offscreen_object.redactions i) ∧
        (∀ i, r.state.prev_redactions i = offscreen_object.prev_redactions i) ∧
        r.state = { offscreen_object with frame_count := r.state.frame_count } :=
  ⟨by decide, no_rotation_population_read_only offscreen_object true (fun _ => 0) (by decide)⟩


/-! ## Consecutive frame steps -/

theorem run_frames_succ (maps : Nat → Bool) (rands : Nat → Nat → Nat) (n t : Nat)
    (s : GstGLRedaction) (r : CallbackResult) (out : GstGLRedaction × Nat)
    (hr : gst_gl_redaction_callback s (maps t) (rands t) = some r)
    (hrest : run_frames maps rands n (t + 1) r.state = some out) :
    run_frames maps rands (n + 1) t s =
      some (out.1, out.2 + (if rotation_fires s (maps t) then 1 else 0)) := by
  rw [run_frames, hr]
  simp only []
  rw [hrest]

/-- From a `frame_count` in `[1, 300 - n]`, with the overlay mapped at every
step, `n` frame steps complete without any rotation and only advance
`frame_count`. -/
theorem run_frames_quiet (maps : Nat → Bool) (rands : Nat → Nat → Nat) :
    ∀ (n t : Nat) (s : GstGLRedaction), s.image_memory = true →
      (∀ j, t ≤ j → j < t + n → maps j = true) →
      1 ≤ s.frame_count → s.frame_count + (n : Int) ≤ 300 →
      ∃ e, run_frames maps rands n t s = some (e, 0) ∧
        e.frame_count = s.frame_count + (n : Int) ∧
        e.redactions = s.redactions ∧
        e.prev_redactions = s.prev_redactions ∧
        e.window_width = s.window_width ∧
        e.window_height = s.window_height ∧
        e.image_memory = true := by
  intro n
  induction n with
  | zero =>
    intro t s hi _ _ _
    exact ⟨s, rfl, by simp, rfl, rfl, rfl, rfl, hi⟩
  | succ n ih =>
    intro t s hi hm h1 h2
    have hmt : maps t = true := hm t (Nat.le_refl t) (by omega)
    have hf : to_size_t s.frame_count % REDACTION_ROTATE_THRESHOLD ≠ 0 := by
      rw [to_size_t_rem_of_nonneg s.frame_count (by omega) (by omega)]
      omega
    obtain ⟨r, hr, f1, f2, f3, f4, f5, f6, -⟩ := callback_no_rotation_fields s (rands t) hi hf
    have hfc : r.state.frame_count = s.frame_count + 1 := by
      rw [f1]; exact wrap32_of_range _ (by omega) (by omega)
    obtain ⟨e, he, g1, g2, g3, g4, g5, g6⟩ := ih (t + 1) r.state (by rw [f6]; exact hi)
      (fun j hj1 hj2 => hm j (by omega) (by omega)) (by omega) (by rw [hfc]; push_cast at h2; omega)
    have hnf : ¬ rotation_fires s (maps t) := fun hfire => hf hfire.2.2
    have hrun := run_frames_succ maps rands n t s r (e, 0) (by rw [hmt]; exact hr) he
    rw [if_neg hnf] at hrun
    refine ⟨e, hrun, ?_, ?_, ?_, ?_, ?_, g6⟩
    · rw [g1, hfc]; push_cast; omega
    · rw [g2, f3]
    · rw [g3, f2]
    · rw [g4, f4]
    · rw [g5, f5]

/-- C16: from an engine with `frame_count = 0` and the overlay loaded and mapped
at every step, for every window size and every random outcome, 300 consecutive
frame steps complete whenever neither modulus of the position generator is
zero, and every completed run of 300 steps performs exactly one rotation
event. -/
theorem three_hundred_frames_one_rotation (s : GstGLRedaction) (maps : Nat → Bool)
    (rands : Nat → Nat → Nat) (hfc : s.frame_count = 0) (hi : s.image_memory = true)
    (hm : ∀ j, j < 300 → maps j = true) :
    (wrap32 (500 + s.window_width) ≠ 0 → wrap32 (500 + s.window_height) ≠ 0 →
        ∃ out, run_frames maps rands 300 0 s = some out) ∧
      ∀ out, run_frames maps rands 300 0 s = some out → out.2 = 1 := by
  have hm0 : maps 0 = true := hm 0 (by omega)
  have hf : to_size_t s.frame_count % REDACTION_ROTATE_THRESHOLD = 0 := by
    rw [hfc]; decide
  have hfire : rotation_fires s (maps 0) := ⟨hi, hm0, hf⟩
  have hrest : ∀ r, gst_gl_redaction_callback s (maps 0) (rands 0) = some r →
      ∃ e, run_frames maps rands 300 0 s = some (e, 1) := by
    intro r hr
    have hr1 := hr
    rw [hm0] at hr1
    obtain ⟨f1, -, -, f4, -, -⟩ := callback_overlay_result s (rands 0) r hi hr1
    have hfc1 : r.state.frame_count = 1 := by rw [f1, hfc]; decide
    obtain ⟨e, he, -⟩ := run_frames_quiet maps rands 299 1 r.state (by rw [f4]; exact hi)
      (fun j _ hj2 => hm j (by omega)) (by omega) (by rw [hfc1]; norm_num)
    have hrun := run_frames_succ maps rands 299 0 s r (e, 0) hr he
    rw [if_pos hfire] at hrun
    exact ⟨e, hrun⟩
  constructor
  · intro hw hh
    obtain ⟨r, hr⟩ := callback_overlay_total s (rands 0) hi (Or.inr ⟨hw, hh⟩)
    obtain ⟨e, he⟩ := hrest r (by rw [hm0]; exact hr)
    exact ⟨_, he⟩
  · intro out hout
    cases hcb : gst_gl_redaction_callback s (maps 0) (rands 0) with
    | none =>
      have hnone : run_frames maps rands 300 0 s = none := by
        show run_frames maps rands (299 + 1) 0 s = none
        rw [run_frames, hcb]
      rw [hnone] at hout
      exact absurd hout (by simp)
    | some r =>
      obtain ⟨e, he⟩ := hrest r hcb
      rw [he] at hout
      simp only [Option.some.injEq] at hout
      rw [← hout]

/-- Witness for C16: a freshly started 1920x1080 engine with the overlay loaded. -/
theorem three_hundred_frames_one_rotation_witness :
    (∃ out, run_frames (fun _ => true) (fun _ _ => 960) 300 0 (started_object 660) =
        some out) ∧
      ∀ out, run_frames (fun _ => true) (fun _ _ => 960) 300 0 (started_object 660) =
        some out → out.2 = 1 :=
  ⟨(three_hundred_frames_one_rotation (started_object 660) (fun _ => true) (fun _ _ => 960)
      (by decide) (by decide) (fun _ _ => rfl)).1 (by decide) (by decide),
    (three_hundred_frames_one_rotation (started_object 660) (fun _ => true) (fun _ _ => 960)
      (by decide) (by decide) (fun _ _ => rfl)).2⟩


/-! ## The frame before a rotation -/

/-- At phase 0 the rectangle handed to the clamp is the previous rectangle. -/
theorem to_check_interpolate_of_rem_zero (prev cur : Rectangle) (frame_count : Int)
    (h : to_size_t frame_count % REDACTION_ROTATE_THRESHOLD = 0) :
    to_check (interpolate prev cur frame_count) = prev := by
  have h0 := interp_of_rem_zero frame_count h
  cases prev with
  | mk l t r b =>
    simp only [to_check, interpolate, h0, mul_zero, add_zero, to_gint_intCast]
    have e1 : to_gint ((r : ℚ) - (l : ℚ)) = r - l := by
      rw [← Int.cast_sub]; exact to_gint_intCast _
    have e2 : to_gint ((b : ℚ) - (t : ℚ)) = b - t := by
      rw [← Int.cast_sub]; exact to_gint_intCast _
    rw [e1, e2]
    have e3 : to_gint ((l : ℚ) + ((r - l : Int) : ℚ)) = r := by
      rw [← Int.cast_add, to_gint_intCast]; omega
    have e4 : to_gint ((t : ℚ) + ((b - t : Int) : ℚ)) = b := by
      rw [← Int.cast_add, to_gint_intCast]; omega
    rw [e3, e4]

/-- C11 (the code on the last frame before a rotation): a freshly started
1920x1080 engine (every `rand()` of the start 660, every later one 960) reaches
`frame_count = 299` after 299 frame steps, one of them a rotation.  The next
step fires no rotation and leaves `frame_count = 300`, so its successor fires
the rotation; the phase it uses is 0, not `299/300`, and region 0, with previous
rectangle `{160,160,170,170}` and target `{460,460,570,570}`, is interpolated to
`{160,160,170,170}`: its left edge is 300 pixels from the target edge. -/
theorem last_frame_before_rotation_phase_zero :
    ∃ s r, run_frames (fun _ => true) (fun _ _ => 960) 299 0 (started_object 660) =
        some (s, 1) ∧
      s.frame_count = 299 ∧
      ¬ rotation_fires s true ∧
      gst_gl_redaction_callback s true (fun _ => 960) = some r ∧
      rotation_fires r.state true ∧
      interp r.state.frame_count = 0 ∧
      r.state.prev_redactions 0 = ⟨160, 160, 170, 170⟩ ∧
      r.state.redactions 0 = ⟨460, 460, 570, 570⟩ ∧
      to_check (interpolate (r.state.prev_redactions 0) (r.state.redactions 0)
        r.state.frame_count) = ⟨160, 160, 170, 170⟩ := by
  -- the first step: a rotation
  have hfire : rotation_fires (started_object 660) true := by decide
  have hinit := (started_object_redactions 660 0 (by decide)).1
  have ht : start_target_box 660 660 660 660 = ⟨160, 160, 170, 170⟩ := by decide
  obtain ⟨red, hred⟩ := rotate_loop_total (started_object 660).window_width
    (started_object 660).window_height (fun _ => 960) (by decide) (by decide)
    NUM_REDACTIONS 0 0 (started_object 660).redactions
  have hbox := (rotate_loop_spec _ _ _ _ _ _ _ _ hred 0).2 (Nat.le_refl 0) (by decide)
  have hval : rotation_box (started_object 660).window_width
      (started_object 660).window_height 960 960 960 960 = some ⟨460, 460, 570, 570⟩ := by
    decide
  simp only [Nat.sub_self, Nat.mul_zero, Nat.add_zero] at hbox
  rw [hval] at hbox
  have hr0 : red 0 = ⟨460, 460, 570, 570⟩ := (Option.some.inj hbox).symm
  obtain ⟨r1, hr1, a1, a2, a3, -, -, a6, -⟩ :=
    callback_rotation_fields _ _ red hfire.1 hfire.2.2 hred
  have hfc1 : r1.state.frame_count = 1 := by rw [a1]; decide
  have hi1 : r1.state.image_memory = true := by rw [a6]; exact hfire.1
  -- 298 steps without rotation
  obtain ⟨s, hs, b1, b2, b3, -, -, b6⟩ := run_frames_quiet (fun _ => true) (fun _ _ => 960) 298 1
    r1.state hi1 (fun _ _ _ => rfl) (by omega) (by rw [hfc1]; norm_num)
  have hrun := run_frames_succ (fun _ => true) (fun _ _ => 960) 298 0 (started_object 660) r1
    (s, 0) hr1 hs
  rw [if_pos hfire] at hrun
  have hsfc : s.frame_count = 299 := by rw [b1, hfc1]; norm_num
  -- the step from `frame_count = 299`
  have hf : to_size_t s.frame_count % REDACTION_ROTATE_THRESHOLD ≠ 0 := by
    rw [hsfc]; decide
  obtain ⟨r, hr, c1, c2, c3, -, -, c6, -⟩ := callback_no_rotation_fields s (fun _ => 960) b6 hf
  have hrfc : r.state.frame_count = 300 := by rw [c1, hsfc]; decide
  have hz : to_size_t r.state.frame_count % REDACTION_ROTATE_THRESHOLD = 0 := by
    rw [hrfc]; decide
  have hprev : r.state.prev_redactions 0 = ⟨160, 160, 170, 170⟩ := by
    rw [c2, b3, a2, hinit, ht]
  have hcur : r.state.redactions 0 = ⟨460, 460, 570, 570⟩ := by
    rw [c3, b2, a3, hr0]
  refine ⟨s, r, hrun, hsfc, fun hfire2 => hf hfire2.2.2, hr, ⟨by rw [c6]; exact b6, rfl, hz⟩,
    interp_of_rem_zero _ hz, hprev, hcur, ?_⟩
  rw [to_check_interpolate_of_rem_zero _ _ _ hz, hprev]


/-! ## Window clamp and drawing -/

theorem Rectangle.intersection_comm_eq (a b : Rectangle) :
    a.intersection b = b.intersection a := by
  unfold Rectangle.intersection
  simp only [max_comm b.left a.left, max_comm b.top a.top, min_comm b.right a.right,
    min_comm b.bottom a.bottom]

theorem clamp_to_window_eq (s : GstGLRedaction) (rect : Rectangle) :
    clamp_to_window s rect =
      rect.intersection ⟨0, 0, s.window_width, s.window_height⟩ := by
  unfold clamp_to_window
  exact Rectangle.intersection_comm_eq _ _

/-- The drawing loop issues exactly one draw call for each region of its range
whose clamped rectangle is valid, and none for any other region. -/
theorem draw_loop_count (s : GstGLRedaction) (j : Nat) :
    ∀ (n i : Nat), (draw_loop s n i).countP (fun d => decide (d.region = j)) =
      if i ≤ j ∧ j < i + n ∧
          (clamp_to_window s (to_check (interpolate (s.prev_redactions j) (s.redactions j)
            s.frame_count))).is_valid = true then 1 else 0 := by
  intro n
  induction n with
  | zero =>
    intro i
    have : ¬ (i ≤ j ∧ j < i + 0 ∧
        (clamp_to_window s (to_check (interpolate (s.prev_redactions j) (s.redactions j)
          s.frame_count))).is_valid = true) := by
      intro h; omega
    rw [if_neg this]
    rfl
  | succ n ih =>
    intro i
    unfold draw_loop
    simp only []
    by_cases hji : j = i
    · subst hji
      have hrest := ih (j + 1)
      rw [if_neg (by intro h; omega)] at hrest
      by_cases hv : (clamp_to_window s (to_check (interpolate (s.prev_redactions j)
          (s.redactions j) s.frame_count))).is_valid = true
      · rw [if_pos hv, List.countP_cons, hrest]
        simp [hv]
      · rw [if_neg hv, hrest]
        simp [hv]
    · have hrest := ih (i + 1)
      have hcond : (i + 1 ≤ j ∧ j < i + 1 + n ∧
          (clamp_to_window s (to_check (interpolate (s.prev_redactions j) (s.redactions j)
            s.frame_count))).is_valid = true) ↔
          (i ≤ j ∧ j < i + (n + 1) ∧
          (clamp_to_window s (to_check (interpolate (s.prev_redactions j) (s.redactions j)
            s.frame_count))).is_valid = true) := by
        constructor
        · rintro ⟨h1, h2, h3⟩; exact ⟨by omega, by omega, h3⟩
        · rintro ⟨h1, h2, h3⟩; exact ⟨by omega, by omega, h3⟩
      rw [if_congr hcond rfl rfl] at hrest
      by_cases hv : (clamp_to_window s (to_check (interpolate (s.prev_redactions i)
          (s.redactions i) s.frame_count))).is_valid = true
      · rw [if_pos hv, List.countP_cons, hrest]
        have hne : ¬ i = j := fun h => hji h.symm
        simp [hne]
      · rw [if_neg hv, hrest]

/-- Every draw call of the drawing loop belongs to a region of its range whose
clamped rectangle is valid, and uploads the quad of that region. -/
theorem draw_loop_mem (s : GstGLRedaction) (d : DrawCall) :
    ∀ (n i : Nat), d ∈ draw_loop s n i →
      i ≤ d.region ∧ d.region < i + n ∧
        (clamp_to_window s (to_check (interpolate (s.prev_redactions d.region)
          (s.redactions d.region) s.frame_count))).is_valid = true ∧
        d.vertices = quad_vertices s (interpolate (s.prev_redactions d.region)
          (s.redactions d.region) s.frame_count) := by
  intro n
  induction n with
  | zero => intro i h; simp [draw_loop] at h
  | succ n ih =>
    intro i h
    unfold draw_loop at h
    simp only [] at h
    by_cases hv : (clamp_to_window s (to_check (interpolate (s.prev_redactions i)
        (s.redactions i) s.frame_count))).is_valid = true
    · rw [if_pos hv, List.mem_cons] at h
      rcases h with h | h
      · subst h
        refine ⟨Nat.le_refl i, ?_, hv, rfl⟩
        show i < i + (n + 1)
        omega
      · obtain ⟨h1, h2, h3, h4⟩ := ih (i + 1) h
        exact ⟨by omega, by omega, h3, h4⟩
    · rw [if_neg hv] at h
      obtain ⟨h1, h2, h3, h4⟩ := ih (i + 1) h
      exact ⟨by omega, by omega, h3, h4⟩

/-- With a non-positive window dimension no rectangle survives the clamp. -/
theorem clamp_invalid_of_window (s : GstGLRedaction) (r : Rectangle)
    (h : s.window_width ≤ 0 ∨ s.window_height ≤ 0) :
    (clamp_to_window s r).is_valid = false := by
  have hd : clamp_to_window s r = emptyRectangle := by
    unfold clamp_to_window
    apply Rectangle.intersection_of_disjoint
    rcases h with h | h
    · left
      show max 0 r.left ≥ min s.window_width r.right
      exact le_trans (min_le_left _ _) (le_trans h (le_max_left _ _))
    · right
      show max 0 r.top ≥ min s.window_height r.bottom
      exact le_trans (min_le_left _ _) (le_trans h (le_max_left _ _))
  rw [hd]
  decide

theorem draw_loop_nil_of_window (s : GstGLRedaction)
    (h : s.window_width ≤ 0 ∨ s.window_height ≤ 0) :
    ∀ (n i : Nat), draw_loop s n i = [] := by
  intro n
  induction n with
  | zero => intro i; rfl
  | succ n ih =>
    intro i
    unfold draw_loop
    simp only []
    rw [clamp_invalid_of_window s _ h]
    simp [ih]

/-- The draw calls of any completed frame step are those of the drawing loop on
the object it leaves, or there are none. -/
theorem callback_draws (s : GstGLRedaction) (map_ok : Bool) (rand : Nat → Nat)
    (r : CallbackResult) (hr : gst_gl_redaction_callback s map_ok rand = some r) :
    (r.draws = draw_loop r.state NUM_REDACTIONS 0 ∨ r.draws = []) ∧
      r.state.window_width = s.window_width ∧ r.state.window_height = s.window_height := by
  by_cases hov : s.image_memory = false ∨ map_ok = false
  · rw [callback_no_overlay s map_ok rand hov] at hr
    simp only [Option.some.injEq] at hr
    subst hr
    exact ⟨Or.inr rfl, rfl, rfl⟩
  · have hi : s.image_memory = true := by
      cases hs : s.image_memory
      · exact absurd (Or.inl hs) hov
      · rfl
    have hm : map_ok = true := by
      cases hs : map_ok
      · exact absurd (Or.inr hs) hov
      · rfl
    subst hm
    obtain ⟨-, f2, f3, -, -, f6⟩ := callback_overlay_result s rand r hi hr
    exact ⟨Or.inl f6, f2, f3⟩


/-- C13: in every frame step with the overlay loaded and mapped, the step
completes unless a rotation is due and a modulus of the position generator is
zero; in every completed step the callback returns `TRUE` and, for every region
`i` below 1000 with interpolated integer rectangle `rect`, `clamp_to_window rect`
equals `intersection(rect, {0,0,window_width,window_height})` and the number of
draw calls issued for region `i` is one when that intersection is valid and
zero when it is not. -/
theorem clamp_decides_drawing (s : GstGLRedaction) (rand : Nat → Nat)
    (hi : s.image_memory = true) :
    ((to_size_t s.frame_count % REDACTION_ROTATE_THRESHOLD ≠ 0 ∨
          (wrap32 (500 + s.window_width) ≠ 0 ∧ wrap32 (500 + s.window_height) ≠ 0)) →
        ∃ r, gst_gl_redaction_callback s true rand = some r) ∧
      ∀ r, gst_gl_redaction_callback s true rand = some r →
        r.ret = true ∧
        ∀ i, i < NUM_REDACTIONS →
          clamp_to_window r.state
              (to_check (interpolate (r.state.prev_redactions i) (r.state.redactions i)
                r.state.frame_count)) =
            Rectangle.intersection
              (to_check (interpolate (r.state.prev_redactions i) (r.state.redactions i)
                r.state.frame_count))
              ⟨0, 0, r.state.window_width, r.state.window_height⟩ ∧
          r.draws.countP (fun d => decide (d.region = i)) =
            if (Rectangle.intersection
                (to_check (interpolate (r.state.prev_redactions i) (r.state.redactions i)
                  r.state.frame_count))
                ⟨0, 0, r.state.window_width, r.state.window_height⟩).is_valid = true
            then 1 else 0 := by
  refine ⟨callback_overlay_total s rand hi, ?_⟩
  intro r hr
  obtain ⟨-, -, -, -, f5, f6⟩ := callback_overlay_result s rand r hi hr
  refine ⟨f5, ?_⟩
  intro i hlt
  refine ⟨clamp_to_window_eq _ _, ?_⟩
  rw [f6, draw_loop_count r.state i NUM_REDACTIONS 0, clamp_to_window_eq]
  by_cases hv : (Rectangle.intersection
      (to_check (interpolate (r.state.prev_redactions i) (r.state.redactions i)
        r.state.frame_count))
      ⟨0, 0, r.state.window_width, r.state.window_height⟩).is_valid = true
  · rw [if_pos hv, if_pos ⟨Nat.zero_le i, by omega, hv⟩]
  · rw [if_neg hv, if_neg (fun h => hv h.2.2)]

/-- Witness for C13: a frame step of the 1920x1080 engine at `frame_count` 301. -/
theorem clamp_decides_drawing_witness :
    (∃ r, gst_gl_redaction_callback offscreen_object true (fun _ => 0) = some r) ∧
      ∀ r, gst_gl_redaction_callback offscreen_object true (fun _ => 0) = some r →
        r.ret = true ∧
        ∀ i, i < NUM_REDACTIONS →
          clamp_to_window r.state
              (to_check (interpolate (r.state.prev_redactions i) (r.state.redactions i)
                r.state.frame_count)) =
            Rectangle.intersection
              (to_check (interpolate (r.state.prev_redactions i) (r.state.redactions i)
                r.state.frame_count))
              ⟨0, 0, r.state.window_width, r.state.window_height⟩ ∧
          r.draws.countP (fun d => decide (d.region = i)) =
            if (Rectangle.intersection
                (to_check (interpolate (r.state.prev_redactions i) (r.state.redactions i)
                  r.state.frame_count))
                ⟨0, 0, r.state.window_width, r.state.window_height⟩).is_valid = true
            then 1 else 0 :=
  ⟨(clamp_decides_drawing offscreen_object (fun _ => 0) (by decide)).1 (Or.inl (by decide)),
    (clamp_decides_drawing offscreen_object (fun _ => 0) (by decide)).2⟩

/-- C14 (as stated, refuted): in a 1920x1080 window the rectangle `{10,10,5,5}`
satisfies `0 <= left`, `right <= window_width`, `0 <= top`,
`bottom <= window_height`, yet `clamp_to_window` returns `{0,0,0,0}`. -/
theorem clamp_changes_invalid_rectangle :
    (0 : Int) ≤ (⟨10, 10, 5, 5⟩ : Rectangle).left ∧
      (⟨10, 10, 5, 5⟩ : Rectangle).right ≤ (created_object 1920 1080 true).window_width ∧
      (0 : Int) ≤ (⟨10, 10, 5, 5⟩ : Rectangle).top ∧
      (⟨10, 10, 5, 5⟩ : Rectangle).bottom ≤ (created_object 1920 1080 true).window_height ∧
      clamp_to_window (created_object 1920 1080 true) ⟨10, 10, 5, 5⟩ = ⟨0, 0, 0, 0⟩ ∧
      clamp_to_window (created_object 1920 1080 true) ⟨10, 10, 5, 5⟩ ≠ ⟨10, 10, 5, 5⟩ := by
  decide

/-- C14 (amended): for every window size and every valid rectangle `r` that
lies entirely within the window (`0 <= r.left`, `r.right <= window_width`,
`0 <= r.top`, `r.bottom <= window_height`), `clamp_to_window r` returns `r`
unchanged. -/
theorem clamp_within_window (s : GstGLRedaction) (r : Rectangle)
    (hv : r.is_valid = true) (hl : 0 ≤ r.left) (hr : r.right ≤ s.window_width)
    (ht : 0 ≤ r.top) (hb : r.bottom ≤ s.window_height) :
    clamp_to_window s r = r := by
  obtain ⟨h1, h2⟩ := (Rectangle.is_valid_iff r).mp hv
  unfold clamp_to_window
  have hx : max (0 : Int) r.left < min s.window_width r.right := by
    rw [max_eq_right hl, min_eq_right hr]; exact h1
  have hy : max (0 : Int) r.top < min s.window_height r.bottom := by
    rw [max_eq_right ht, min_eq_right hb]; exact h2
  rw [Rectangle.intersection_of_overlap _ r hx hy]
  simp only [max_eq_right hl, max_eq_right ht, min_eq_right hr, min_eq_right hb]

/-- Witness for C14 (amended): `{5,5,15,15}` in a 1920x1080 window. -/
theorem clamp_within_window_witness :
    clamp_to_window (created_object 1920 1080 true) ⟨5, 5, 15, 15⟩ = ⟨5, 5, 15, 15⟩ :=
  clamp_within_window (created_object 1920 1080 true) ⟨5, 5, 15, 15⟩ (by decide) (by decide)
    (by decide) (by decide) (by decide)

/-- C20: if `window_width <= 0` or `window_height <= 0` then `clamp_to_window r`
is not valid for any rectangle `r`, the drawing loop skips every region, and no
completed frame step issues a draw call, so the divisions by the window
dimensions are evaluated only when both are strictly positive. -/
theorem nonpositive_window_skips_all (s : GstGLRedaction)
    (h : s.window_width ≤ 0 ∨ s.window_height ≤ 0) :
    (∀ r : Rectangle, (clamp_to_window s r).is_valid = false) ∧
      (∀ n i : Nat, draw_loop s n i = []) ∧
      ∀ (map_ok : Bool) (rand : Nat → Nat) (r : CallbackResult),
        gst_gl_redaction_callback s map_ok rand = some r → r.draws = [] := by
  refine ⟨fun r => clamp_invalid_of_window s r h, draw_loop_nil_of_window s h, ?_⟩
  intro map_ok rand r hr
  obtain ⟨hd, hw, hh⟩ := callback_draws s map_ok rand r hr
  rcases hd with hd | hd
  · rw [hd]
    exact draw_loop_nil_of_window r.state (by rw [hw, hh]; exact h) _ _
  · exact hd

/-- Witness for C20: a 0x1080 window with the overlay loaded. -/
theorem nonpositive_window_skips_all_witness :
    (∀ r : Rectangle, (clamp_to_window (created_object 0 1080 true) r).is_valid = false) ∧
      (∀ n i : Nat, draw_loop (created_object 0 1080 true) n i = []) ∧
      ∀ (map_ok : Bool) (rand : Nat → Nat) (r : CallbackResult),
        gst_gl_redaction_callback (created_object 0 1080 true) map_ok rand = some r →
          r.draws = [] :=
  nonpositive_window_skips_all (created_object 0 1080 true) (Or.inl (by decide))

/-! ## The texture filter without an overlay -/

/-- C17: when no overlay image is loaded (`image_memory` absent and the location
unchanged or null), a frame step through `gst_gl_redaction_filter_texture`
completes, runs the render pass that draws the full-screen base frame, issues
no overlay draw call, returns `TRUE`, and leaves the population untouched,
whatever the file loader, the memory mapping and the random source would
give. -/
theorem no_overlay_identity_pass (s : GstGLRedaction) (load : LoadOutcome) (map_ok : Bool)
    (rand : Nat → Nat) (hi : s.image_memory = false)
    (hloc : s.location_has_changed = false ∨ s.location = none) :
    ∃ r, gst_gl_redaction_filter_texture s load map_ok rand = some r ∧
      r.rendered = true ∧ r.draws = [] ∧ r.ret = true ∧
      r.state.image_memory = false ∧
      r.state.frame_count = s.frame_count ∧
      r.state.redactions = s.redactions ∧
      r.state.prev_redactions = s.prev_redactions := by
  unfold gst_gl_redaction_filter_texture
  cases hch : s.location_has_changed with
  | false =>
    simp only [Bool.false_eq_true, if_false]
    unfold render_and_return gst_gl_filter_render_to_target
    rw [callback_no_overlay s map_ok rand (Or.inl hi)]
    exact ⟨_, rfl, rfl, rfl, rfl, hi, rfl, rfl, rfl⟩
  | true =>
    have hnull : s.location = none := by
      rcases hloc with h | h
      · rw [hch] at h; exact absurd h (by simp)
      · exact h
    simp only [if_true, load_file, hnull, Bool.not_true, Bool.false_eq_true, if_false]
    unfold render_and_return gst_gl_filter_render_to_target
    rw [callback_no_overlay _ map_ok rand (Or.inl rfl)]
    exact ⟨_, rfl, rfl, rfl, rfl, rfl, rfl, rfl, rfl⟩

/-- Witness for C17: a created 1920x1080 object without overlay. -/
theorem no_overlay_identity_pass_witness :
    ∃ r, gst_gl_redaction_filter_texture (created_object 1920 1080 false) ⟨true, true⟩ true
        (fun _ => 0) = some r ∧
      r.rendered = true ∧ r.draws = [] ∧ r.ret = true ∧
      r.state.image_memory = false ∧
      r.state.frame_count = (created_object 1920 1080 false).frame_count ∧
      r.state.redactions = (created_object 1920 1080 false).redactions ∧
      r.state.prev_redactions = (created_object 1920 1080 false).prev_redactions :=
  no_overlay_identity_pass (created_object 1920 1080 false) ⟨true, true⟩ true (fun _ => 0) rfl
    (Or.inl rfl)


/-! ## Truncation toward zero -/

theorem to_gint_mono (a b : ℚ) (h : a ≤ b) : to_gint a ≤ to_gint b := by
  unfold to_gint
  by_cases ha : 0 ≤ a
  · rw [if_pos ha, if_pos (le_trans ha h)]
    exact Int.floor_mono h
  · rw [if_neg ha]
    by_cases hb : 0 ≤ b
    · rw [if_pos hb]
      have h1 : ⌈a⌉ ≤ 0 := Int.ceil_le.mpr (by push_cast; exact le_of_lt (not_le.mp ha))
      have h2 : (0 : Int) ≤ ⌊b⌋ := Int.le_floor.mpr (by push_cast; exact hb)
      exact le_trans h1 h2
    · rw [if_neg hb]
      exact Int.ceil_mono h

theorem to_gint_add_one_le (a : ℚ) : to_gint (a + 1) ≤ to_gint a + 1 := by
  unfold to_gint
  by_cases ha : 0 ≤ a
  · rw [if_pos ha, if_pos (by linarith), Int.floor_add_one]
  · rw [if_neg ha]
    by_cases h1 : 0 ≤ a + 1
    · rw [if_pos h1, Int.floor_add_one]
      have := Int.floor_le_ceil a
      omega
    · rw [if_neg h1, Int.ceil_add_one]

/-- Truncation moves a value by less than one. -/
theorem to_gint_err (q : ℚ) : |((to_gint q : Int) : ℚ) - q| < 1 := by
  unfold to_gint
  rw [abs_lt]
  by_cases h : 0 ≤ q
  · rw [if_pos h]
    have h1 := Int.floor_le q
    have h2 := Int.lt_floor_add_one q
    constructor <;> linarith
  · rw [if_neg h]
    have h1 := Int.le_ceil q
    have h2 := Int.ceil_lt_add_one q
    constructor <;> linarith

/-- Values less than one apart truncate to integers at most one apart. -/
theorem to_gint_near (a b : ℚ) (h : |a - b| < 1) : |to_gint a - to_gint b| ≤ 1 := by
  rw [abs_lt] at h
  have h1 : to_gint b ≤ to_gint a + 1 :=
    le_trans (to_gint_mono b (a + 1) (by linarith)) (to_gint_add_one_le a)
  have h2 : to_gint a ≤ to_gint b + 1 :=
    le_trans (to_gint_mono a (b + 1) (by linarith)) (to_gint_add_one_le b)
  rw [abs_le]
  constructor <;> omega

theorem interp_bounds (frame_count : Int) : 0 ≤ interp frame_count ∧ interp frame_count < 1 := by
  unfold interp
  have hlt : to_size_t frame_count % REDACTION_ROTATE_THRESHOLD < REDACTION_ROTATE_THRESHOLD :=
    Nat.mod_lt _ (by decide)
  have hpos : (0 : ℚ) < (REDACTION_ROTATE_THRESHOLD : ℚ) := by
    norm_num [REDACTION_ROTATE_THRESHOLD]
  constructor
  · exact div_nonneg (Nat.cast_nonneg _) (le_of_lt hpos)
  · rw [div_lt_one hpos]
    exact_mod_cast hlt

theorem interp_of_nonneg (frame_count : Int) (h0 : 0 ≤ frame_count)
    (h1 : frame_count < 2147483648) :
    interp frame_count = ((frame_count % 300 : Int) : ℚ) / 300 := by
  unfold interp
  rw [to_size_t_rem_of_nonneg frame_count h0 h1]
  have hnn : 0 ≤ frame_count % 300 := Int.emod_nonneg _ (by decide)
  have hc : (((frame_count % 300).toNat : Nat) : ℚ) = ((frame_count % 300 : Int) : ℚ) := by
    rw [← Int.cast_natCast, Int.toNat_of_nonneg hnn]
  rw [hc]
  norm_num [REDACTION_ROTATE_THRESHOLD]

/-- The values of lines 565-569 in terms of the linear interpolation of each
edge, when the edge differences fit an `int`. -/
theorem interpolate_eq (prev cur : Rectangle) (frame_count : Int)
    (hl : fits_int (cur.left - prev.left)) (ht : fits_int (cur.top - prev.top))
    (hr : fits_int (cur.right - prev.right)) (hb : fits_int (cur.bottom - prev.bottom)) :
    interpolate prev cur frame_count =
      { x := edge_at prev.left cur.left (interp frame_count)
        y := edge_at prev.top cur.top (interp frame_count)
        render_width := to_gint (edge_at prev.right cur.right (interp frame_count) -
          edge_at prev.left cur.left (interp frame_count))
        render_height := to_gint (edge_at prev.bottom cur.bottom (interp frame_count) -
          edge_at prev.top cur.top (interp frame_count)) } := by
  unfold interpolate edge_at
  simp only [wrap32_of_range _ hl.1 hl.2, wrap32_of_range _ ht.1 ht.2,
    wrap32_of_range _ hr.1 hr.2, wrap32_of_range _ hb.1 hb.2, Int.cast_sub]


/-! ## Edges handed to the window clamp -/

/-- Between identical previous and target rectangles the interpolation rests
on that rectangle. -/
theorem interpolate_rest (b : Rectangle) (frame_count : Int) :
    interpolate b b frame_count =
      { x := (b.left : ℚ), y := (b.top : ℚ), render_width := b.right - b.left,
        render_height := b.bottom - b.top } := by
  have hz : wrap32 0 = 0 := by decide
  have e1 : to_gint ((b.right : ℚ) - (b.left : ℚ)) = b.right - b.left := by
    rw [← Int.cast_sub]; exact to_gint_intCast _
  have e2 : to_gint ((b.bottom : ℚ) - (b.top : ℚ)) = b.bottom - b.top := by
    rw [← Int.cast_sub]; exact to_gint_intCast _
  simp only [interpolate, sub_self, hz, Int.cast_zero, zero_mul, add_zero, e1, e2]

/-- A frame step of the 1920x1080 engine whose regions rest at
`{-10,-10,90,90}`: region 0 is interpolated to corner `(-10, -10)` and size
`100 x 100`, its clamped rectangle is `{0,0,90,90}`, and it is drawn. -/
theorem offscreen_step :
    ∃ r, gst_gl_redaction_callback offscreen_object true (fun _ => 0) = some r ∧
      r.state.window_width = 1920 ∧ r.state.window_height = 1080 ∧
      interpolate (r.state.prev_redactions 0) (r.state.redactions 0) r.state.frame_count =
        { x := -10, y := -10, render_width := 100, render_height := 100 } ∧
      clamp_to_window r.state
        (to_check (interpolate (r.state.prev_redactions 0) (r.state.redactions 0)
          r.state.frame_count)) = ⟨0, 0, 90, 90⟩ ∧
      ∃ d, d ∈ r.draws ∧ d.region = 0 := by
  have hf : to_size_t offscreen_object.frame_count % REDACTION_ROTATE_THRESHOLD ≠ 0 := by
    decide
  obtain ⟨r, hr, c1, c2, c3, c4, c5, -, -⟩ :=
    callback_no_rotation_fields offscreen_object (fun _ => 0) rfl hf
  have hprev : r.state.prev_redactions 0 = ⟨-10, -10, 90, 90⟩ := by rw [c2]; rfl
  have hcur : r.state.redactions 0 = ⟨-10, -10, 90, 90⟩ := by rw [c3]; rfl
  have hw : r.state.window_width = 1920 := by rw [c4]; rfl
  have hh : r.state.window_height = 1080 := by rw [c5]; rfl
  have hp : interpolate (r.state.prev_redactions 0) (r.state.redactions 0)
      r.state.frame_count = { x := -10, y := -10, render_width := 100, render_height := 100 } := by
    rw [hprev, hcur, interpolate_rest]
    norm_num
  have hchk : to_check (interpolate (r.state.prev_redactions 0) (r.state.redactions 0)
      r.state.frame_count) = ⟨-10, -10, 90, 90⟩ := by
    rw [hp]
    have e1 : to_gint (-10 : ℚ) = -10 := to_gint_of_neg _ (-10) (by norm_num) (by norm_num)
      (by norm_num)
    have e2 : to_gint ((-10 : ℚ) + ((100 : Int) : ℚ)) = 90 :=
      to_gint_of_nonneg _ 90 (by norm_num) (by norm_num) (by norm_num)
    simp only [to_check, e1, e2]
  have hclamp : clamp_to_window r.state
      (to_check (interpolate (r.state.prev_redactions 0) (r.state.redactions 0)
        r.state.frame_count)) = ⟨0, 0, 90, 90⟩ := by
    rw [hchk]
    unfold clamp_to_window
    rw [hw, hh]
    decide
  have hvalid : (clamp_to_window r.state
      (to_check (interpolate (r.state.prev_redactions 0) (r.state.redactions 0)
        r.state.frame_count))).is_valid = true := by
    rw [hclamp]; decide
  have hdraws := (callback_overlay_result offscreen_object (fun _ => 0) r rfl hr).2.2.2.2.2
  have hcount := draw_loop_count r.state 0 NUM_REDACTIONS 0
  rw [if_pos ⟨Nat.le_refl 0, by decide, hvalid⟩, ← hdraws] at hcount
  have hpos : 0 < r.draws.countP (fun d => decide (d.region = 0)) := by omega
  obtain ⟨d, hd, hreg⟩ := List.countP_pos_iff.mp hpos
  exact ⟨r, hr, hw, hh, hp, hclamp, d, hd, by simpa using hreg⟩

/-- C15 (as stated, refuted): in a frame step of the 1920x1080 engine whose
regions rest at `{-10,-10,90,90}`, region 0 survives the clamp (its clamped
rectangle is `{0,0,90,90}`) and is drawn, yet the first vertex of its quad has
`x = -97/96`, the image of pixel `-10` and not of the clamped pixel `0`; that
vertex lies outside `[-1, 1]`. -/
theorem drawn_quad_not_clamped :
    ∃ r, gst_gl_redaction_callback offscreen_object true (fun _ => 0) = some r ∧
      ∃ d, d ∈ r.draws ∧ d.region = 0 ∧
        clamp_to_window r.state
          (to_check (interpolate (r.state.prev_redactions 0) (r.state.redactions 0)
            r.state.frame_count)) = ⟨0, 0, 90, 90⟩ ∧
        d.vertices.getD 0 0 = -97 / 96 ∧
        ¬ quad_in_ndc d.vertices := by
  obtain ⟨r, hr, hw, -, hp, hclamp, d, hd, hreg0⟩ := offscreen_step
  have hdl : r.draws = draw_loop r.state NUM_REDACTIONS 0 :=
    (callback_overlay_result offscreen_object (fun _ => 0) r rfl hr).2.2.2.2.2
  have hmem := draw_loop_mem r.state d NUM_REDACTIONS 0 (by rw [← hdl]; exact hd)
  have hvert := hmem.2.2.2
  rw [hreg0, hp] at hvert
  have hv0 : d.vertices.getD 0 0 = -97 / 96 := by
    rw [hvert]
    simp only [quad_vertices, hw, List.getD_cons_zero]
    norm_num
  refine ⟨r, hr, d, hd, hreg0, hclamp, hv0, ?_⟩
  intro hq
  have h0 := (hq 0 (by simp)).1
  rw [hv0] at h0
  norm_num at h0

theorem ndc_bounds (a w : ℚ) (hw : 0 < w) (h0 : 0 ≤ a) (h1 : a ≤ w) :
    -1 ≤ a / w * 2 - 1 ∧ a / w * 2 - 1 ≤ 1 := by
  have hq0 : 0 ≤ a / w := div_nonneg h0 (le_of_lt hw)
  have hq1 : a / w ≤ 1 := (div_le_one hw).mpr h1
  constructor <;> linarith

theorem ndc_bounds_add (a b w : ℚ) (hw : 0 < w) (h0 : 0 ≤ a + b) (h1 : a + b ≤ w) :
    -1 ≤ a / w * 2 - 1 + b / w * 2 ∧ a / w * 2 - 1 + b / w * 2 ≤ 1 := by
  have e : a / w * 2 - 1 + b / w * 2 = (a + b) / w * 2 - 1 := by ring
  rw [e]
  exact ndc_bounds (a + b) w hw h0 h1

/-- The uploaded quad lies in `[-1, 1]` when both corners of the unclamped
rectangle lie within a window of positive size. -/
theorem quad_vertices_in_ndc (s : GstGLRedaction) (p : Interpolated)
    (hw : 0 < s.window_width) (hh : 0 < s.window_height)
    (hx0 : 0 ≤ p.x) (hx1 : p.x ≤ (s.window_width : ℚ))
    (hx2 : 0 ≤ p.x + (p.render_width : ℚ))
    (hx3 : p.x + (p.render_width : ℚ) ≤ (s.window_width : ℚ))
    (hy0 : 0 ≤ p.y) (hy1 : p.y ≤ (s.window_height : ℚ))
    (hy2 : 0 ≤ p.y + (p.render_height : ℚ))
    (hy3 : p.y + (p.render_height : ℚ) ≤ (s.window_height : ℚ)) :
    quad_in_ndc (quad_vertices s p) := by
  have hwq : (0 : ℚ) < (s.window_width : ℚ) := by exact_mod_cast hw
  have hhq : (0 : ℚ) < (s.window_height : ℚ) := by exact_mod_cast hh
  have bx := ndc_bounds p.x _ hwq hx0 hx1
  have by1 := ndc_bounds p.y _ hhq hy0 hy1
  have bx2 := ndc_bounds_add p.x (p.render_width : ℚ) _ hwq hx2 hx3
  have by2 := ndc_bounds_add p.y (p.render_height : ℚ) _ hhq hy2 hy3
  intro k hk
  simp only [List.mem_cons, List.mem_singleton, List.not_mem_nil, or_false] at hk
  rcases hk with rfl | rfl | rfl | rfl | rfl | rfl | rfl | rfl
  · exact bx
  · exact by1
  · exact bx2
  · exact by1
  · exact bx2
  · exact by2
  · exact bx
  · exact by2

/-- C15 (amended): for every region that survives the clamp in a completed
frame step, both window dimensions are positive and the quad emitted is the
interpolated rectangle before the clamp (corner `x`, `y`, size `render_width`,
`render_height`) converted by `ndc = pixel / window_dimension * 2 - 1` and
`size = pixel_size / window_dimension * 2`; all four vertices have x and y
within `[-1, 1]` whenever that unclamped rectangle lies within the window
(`0 <= x`, `x + render_width <= window_width`, `0 <= y`,
`y + render_height <= window_height`). -/
theorem drawn_quad_is_interpolated (s : GstGLRedaction) (map_ok : Bool) (rand : Nat → Nat)
    (r : CallbackResult) (d : DrawCall)
    (hr : gst_gl_redaction_callback s map_ok rand = some r) (hd : d ∈ r.draws) :
    d.region < NUM_REDACTIONS ∧
      (clamp_to_window r.state
        (to_check (interpolate (r.state.prev_redactions d.region)
          (r.state.redactions d.region) r.state.frame_count))).is_valid = true ∧
      0 < r.state.window_width ∧ 0 < r.state.window_height ∧
      d.vertices = quad_vertices r.state
        (interpolate (r.state.prev_redactions d.region) (r.state.redactions d.region)
          r.state.frame_count) ∧
      (0 ≤ (interpolate (r.state.prev_redactions d.region) (r.state.redactions d.region)
            r.state.frame_count).x →
        (interpolate (r.state.prev_redactions d.region) (r.state.redactions d.region)
            r.state.frame_count).x +
          ((interpolate (r.state.prev_redactions d.region) (r.state.redactions d.region)
            r.state.frame_count).render_width : ℚ) ≤ (r.state.window_width : ℚ) →
        0 ≤ (interpolate (r.state.prev_redactions d.region) (r.state.redactions d.region)
            r.state.frame_count).y →
        (interpolate (r.state.prev_redactions d.region) (r.state.redactions d.region)
            r.state.frame_count).y +
          ((interpolate (r.state.prev_redactions d.region) (r.state.redactions d.region)
            r.state.frame_count).render_height : ℚ) ≤ (r.state.window_height : ℚ) →
        quad_in_ndc d.vertices) := by
  have hmem : d ∈ draw_loop r.state NUM_REDACTIONS 0 := by
    rcases (callback_draws s map_ok rand r hr).1 with h | h
    · rw [← h]; exact hd
    · rw [h] at hd; exact absurd hd (List.not_mem_nil d)
  obtain ⟨-, hlt, hvalid, hvert⟩ := draw_loop_mem r.state d NUM_REDACTIONS 0 hmem
  have hwin : 0 < r.state.window_width ∧ 0 < r.state.window_height := by
    by_contra hc
    have hnp : r.state.window_width ≤ 0 ∨ r.state.window_height ≤ 0 := by
      by_cases h1 : 0 < r.state.window_width
      · right
        by_contra h2
        exact hc ⟨h1, not_le.mp h2⟩
      · left
        exact not_lt.mp h1
    rw [clamp_invalid_of_window r.state _ hnp] at hvalid
    exact absurd hvalid (by simp)
  refine ⟨by omega, hvalid, hwin.1, hwin.2, hvert, ?_⟩
  intro hx0 hx3 hy0 hy3
  -- a surviving rectangle has its right edge beyond its left edge
  obtain ⟨ox, oy⟩ := Rectangle.intersection_valid_overlap _ _ hvalid
  have hlr : to_gint (interpolate (r.state.prev_redactions d.region)
        (r.state.redactions d.region) r.state.frame_count).x <
      to_gint ((interpolate (r.state.prev_redactions d.region)
        (r.state.redactions d.region) r.state.frame_count).x +
        ((interpolate (r.state.prev_redactions d.region) (r.state.redactions d.region)
          r.state.frame_count).render_width : ℚ)) :=
    lt_of_le_of_lt (le_max_right _ _) (lt_of_lt_of_le ox (min_le_right _ _))
  have htb : to_gint (interpolate (r.state.prev_redactions d.region)
        (r.state.redactions d.region) r.state.frame_count).y <
      to_gint ((interpolate (r.state.prev_redactions d.region)
        (r.state.redactions d.region) r.state.frame_count).y +
        ((interpolate (r.state.prev_redactions d.region) (r.state.redactions d.region)
          r.state.frame_count).render_height : ℚ)) :=
    lt_of_le_of_lt (le_max_right _ _) (lt_of_lt_of_le oy (min_le_right _ _))
  have hwpos : (0 : ℚ) < ((interpolate (r.state.prev_redactions d.region)
      (r.state.redactions d.region) r.state.frame_count).render_width : ℚ) := by
    by_contra hc
    have := to_gint_mono _ _ (show (interpolate (r.state.prev_redactions d.region)
        (r.state.redactions d.region) r.state.frame_count).x +
        ((interpolate (r.state.prev_redactions d.region) (r.state.redactions d.region)
          r.state.frame_count).render_width : ℚ) ≤
        (interpolate (r.state.prev_redactions d.region)
        (r.state.redactions d.region) r.state.frame_count).x by linarith [not_lt.mp hc])
    omega
  have hhpos : (0 : ℚ) < ((interpolate (r.state.prev_redactions d.region)
      (r.state.redactions d.region) r.state.frame_count).render_height : ℚ) := by
    by_contra hc
    have := to_gint_mono _ _ (show (interpolate (r.state.prev_redactions d.region)
        (r.state.redactions d.region) r.state.frame_count).y +
        ((interpolate (r.state.prev_redactions d.region) (r.state.redactions d.region)
          r.state.frame_count).render_height : ℚ) ≤
        (interpolate (r.state.prev_redactions d.region)
        (r.state.redactions d.region) r.state.frame_count).y by linarith [not_lt.mp hc])
    omega
  rw [hvert]
  exact quad_vertices_in_ndc r.state _ hwin.1 hwin.2 hx0 (by linarith) (by linarith) hx3 hy0
    (by linarith) (by linarith) hy3


/-- Witness for C15 (amended): region 0 of the 1920x1080 engine whose regions
rest at `{-10,-10,90,90}`. -/
theorem drawn_quad_is_interpolated_witness :
    ∃ r d, gst_gl_redaction_callback offscreen_object true (fun _ => 0) = some r ∧
      d ∈ r.draws ∧ d.region < NUM_REDACTIONS ∧
      0 < r.state.window_width ∧ 0 < r.state.window_height ∧
      d.vertices = quad_vertices r.state
        (interpolate (r.state.prev_redactions d.region) (r.state.redactions d.region)
          r.state.frame_count) := by
  obtain ⟨r, hr, -, -, -, -, d, hd, -⟩ := offscreen_step
  have h := drawn_quad_is_interpolated offscreen_object true (fun _ => 0) r d hr hd
  exact ⟨r, d, hr, hd, h.1, h.2.2.1, h.2.2.2.1, h.2.2.2.2.1⟩


/-! ## Rectangle: `intersects` and associativity -/

/-- C21: for all rectangles `a` and `b` that are both valid, `a.intersects b` is
true if and only if `(a.intersection b).is_valid` is true; and for all
rectangles, valid or not, `(a.intersection b).is_valid` implies
`a.intersects b`. -/
theorem intersects_iff_intersection_valid (a b : Rectangle) :
    (a.is_valid = true → b.is_valid = true →
        (a.intersects b = true ↔ (a.intersection b).is_valid = true)) ∧
      ((a.intersection b).is_valid = true → a.intersects b = true) := by
  have hfwd : (a.intersection b).is_valid = true → a.intersects b = true := by
    intro h
    obtain ⟨hx, hy⟩ := Rectangle.intersection_valid_overlap a b h
    simp only [Rectangle.intersects, Bool.and_eq_true, decide_eq_true_eq]
    omega
  refine ⟨?_, hfwd⟩
  intro ha hb
  refine ⟨?_, hfwd⟩
  intro h
  obtain ⟨ha1, ha2⟩ := (Rectangle.is_valid_iff a).mp ha
  obtain ⟨hb1, hb2⟩ := (Rectangle.is_valid_iff b).mp hb
  simp only [Rectangle.intersects, Bool.and_eq_true, decide_eq_true_eq] at h
  have hx : max a.left b.left < min a.right b.right := by omega
  have hy : max a.top b.top < min a.bottom b.bottom := by omega
  rw [Rectangle.intersection_of_overlap a b hx hy, Rectangle.is_valid_iff]
  exact ⟨hx, hy⟩

/-- Witness for C21: `{0,0,10,10}` and `{5,5,15,15}` are valid, intersect, and
have a valid intersection. -/
theorem intersects_iff_intersection_valid_witness :
    (Rectangle.intersects ⟨0, 0, 10, 10⟩ ⟨5, 5, 15, 15⟩ = true ↔
        (Rectangle.intersection ⟨0, 0, 10, 10⟩ ⟨5, 5, 15, 15⟩).is_valid = true) ∧
      Rectangle.intersects ⟨0, 0, 10, 10⟩ ⟨5, 5, 15, 15⟩ = true :=
  ⟨(intersects_iff_intersection_valid ⟨0, 0, 10, 10⟩ ⟨5, 5, 15, 15⟩).1 (by decide) (by decide),
    (intersects_iff_intersection_valid ⟨0, 0, 10, 10⟩ ⟨5, 5, 15, 15⟩).2 (by decide)⟩

theorem Rectangle.intersection_of_not_overlap (a b : Rectangle)
    (h : ¬ (max a.left b.left < min a.right b.right ∧
      max a.top b.top < min a.bottom b.bottom)) :
    a.intersection b = emptyRectangle := by
  apply Rectangle.intersection_of_disjoint
  by_cases h1 : max a.left b.left < min a.right b.right
  · right
    by_contra h2
    exact h ⟨h1, not_le.mp h2⟩
  · left
    exact not_lt.mp h1

theorem Rectangle.empty_intersection (c : Rectangle) :
    emptyRectangle.intersection c = emptyRectangle := by
  apply Rectangle.intersection_of_disjoint
  left
  show max 0 c.left ≥ min 0 c.right
  exact le_trans (min_le_left _ _) (le_max_left _ _)

theorem Rectangle.intersection_empty_right (a : Rectangle) :
    a.intersection emptyRectangle = emptyRectangle := by
  apply Rectangle.intersection_of_disjoint
  left
  show max a.left 0 ≥ min a.right 0
  exact le_trans (min_le_right _ _) (le_max_right _ _)

theorem overlap_of_triple_right (la lb lc ra rb rc : Int)
    (h : max (max la lb) lc < min (min ra rb) rc) : max lb lc < min rb rc := by
  omega

theorem overlap_of_triple_left (la lb lc ra rb rc : Int)
    (h : max la (max lb lc) < min ra (min rb rc)) : max la lb < min ra rb := by
  omega

/-- C22: `intersection` is associative under `operator==`, for all rectangles
`a`, `b` and `c`, valid or not. -/
theorem intersection_assoc (a b c : Rectangle) :
    Rectangle.eq ((a.intersection b).intersection c) (a.intersection (b.intersection c)) =
      true := by
  rw [Rectangle.eq_iff]
  by_cases hab : max a.left b.left < min a.right b.right ∧
      max a.top b.top < min a.bottom b.bottom
  · rw [Rectangle.intersection_of_overlap a b hab.1 hab.2]
    by_cases hbc : max b.left c.left < min b.right c.right ∧
        max b.top c.top < min b.bottom c.bottom
    · rw [Rectangle.intersection_of_overlap b c hbc.1 hbc.2]
      by_cases h3 : max (max a.left b.left) c.left < min (min a.right b.right) c.right ∧
          max (max a.top b.top) c.top < min (min a.bottom b.bottom) c.bottom
      · -- all three overlap: both sides are the triple max/min box
        have h3r : max a.left (max b.left c.left) < min a.right (min b.right c.right) ∧
            max a.top (max b.top c.top) < min a.bottom (min b.bottom c.bottom) := by
          rw [← max_assoc, ← min_assoc, ← max_assoc, ← min_assoc]
          exact h3
        rw [Rectangle.intersection_of_overlap
            ⟨max a.left b.left, max a.top b.top, min a.right b.right, min a.bottom b.bottom⟩
            c h3.1 h3.2,
          Rectangle.intersection_of_overlap a
            ⟨max b.left c.left, max b.top c.top, min b.right c.right, min b.bottom c.bottom⟩
            h3r.1 h3r.2]
        simp only [max_assoc, min_assoc]
      · -- the triple box is degenerate: both sides are canonicalised
        have h3r : ¬ (max a.left (max b.left c.left) < min a.right (min b.right c.right) ∧
            max a.top (max b.top c.top) < min a.bottom (min b.bottom c.bottom)) := by
          rw [← max_assoc, ← min_assoc, ← max_assoc, ← min_assoc]
          exact h3
        rw [Rectangle.intersection_of_not_overlap
            ⟨max a.left b.left, max a.top b.top, min a.right b.right, min a.bottom b.bottom⟩
            c h3,
          Rectangle.intersection_of_not_overlap a
            ⟨max b.left c.left, max b.top c.top, min b.right c.right, min b.bottom c.bottom⟩
            h3r]
    · -- `b` and `c` do not overlap, so neither do `a ∩ b` and `c`
      rw [Rectangle.intersection_of_not_overlap b c hbc, Rectangle.intersection_empty_right]
      exact Rectangle.intersection_of_not_overlap
        ⟨max a.left b.left, max a.top b.top, min a.right b.right, min a.bottom b.bottom⟩ c
        (fun h => hbc ⟨overlap_of_triple_right _ _ _ _ _ _ h.1,
          overlap_of_triple_right _ _ _ _ _ _ h.2⟩)
  · -- `a` and `b` do not overlap, so neither do `a` and `b ∩ c`
    rw [Rectangle.intersection_of_not_overlap a b hab, Rectangle.empty_intersection]
    by_cases hbc : max b.left c.left < min b.right c.right ∧
        max b.top c.top < min b.bottom c.bottom
    · rw [Rectangle.intersection_of_overlap b c hbc.1 hbc.2]
      exact (Rectangle.intersection_of_not_overlap a
        ⟨max b.left c.left, max b.top c.top, min b.right c.right, min b.bottom c.bottom⟩
        (fun h => hab ⟨overlap_of_triple_left _ _ _ _ _ _ h.1,
          overlap_of_triple_left _ _ _ _ _ _ h.2⟩)).symm
    · rw [Rectangle.intersection_of_not_overlap b c hbc, Rectangle.intersection_empty_right]

end GlRedaction
